import Mathlib

/-!
# STC15F204EA DIY LED clock: embedding of `src/main.c`

Machine integers are natural numbers reduced modulo `2^8` or `2^16` where the
C code stores them; `int` is 16 bits wide on the target (SDCC, 8051 family).
The two timer interrupts are modelled as step functions on the part of the
memory they own; the busy-wait `_delay_ms` is the only place where the main
task lets time pass, one `timer1_isr` execution per loop test.
-/

namespace DiyClock

/-! ## Constants of `main.c` -/

def DIM_HI : Nat := 100
def DIM_LO : Nat := 190

def S2 : Nat := 1
def S1 : Nat := 0

def PRESS_NONE : Nat := 0
def PRESS_SHORT : Nat := 1
def PRESS_LONG : Nat := 2

def DP_OFF : Nat := 0x0
def DP_ON : Nat := 0x80

/-! ## Tick / debounce scheduler -/

/-- Levels of the two button pins as seen by the successive executions of
`timer1_isr`: `SW1 n` is the level of `P3_1` read by execution number `n`
(`true` = high = switch open, `false` = low = switch closed), `SW2 n` that
of `P3_0`. -/
structure Pins where
  SW1 : Nat → Bool
  SW2 : Nat → Bool

/-- Value of a one-bit port read. -/
def bitval (b : Bool) : Nat := if b then 1 else 0

/-- Memory written by `timer1_isr`: `timerTicksNow`, `debounce[2]`,
`switchcount[2]` (all `uint8_t`).  The field `now` is not program memory: it
counts the executions of `timer1_isr` so far and selects the pin samples. -/
structure TickState where
  timerTicksNow : Nat
  debounce0 : Nat
  debounce1 : Nat
  switchcount0 : Nat
  switchcount1 : Nat
  now : Nat
  deriving DecidableEq, Repr

/-- The read `switchcount[keynum]`; the array has two elements. -/
def switchcount (t : TickState) (keynum : Nat) : Option Nat :=
  match keynum with
  | 0 => some t.switchcount0
  | 1 => some t.switchcount1
  | _ => none

/-- The read `debounce[keynum]`. -/
def debounce (t : TickState) (keynum : Nat) : Option Nat :=
  match keynum with
  | 0 => some t.debounce0
  | 1 => some t.debounce1
  | _ => none

/-- The pin sampled for channel `keynum` by execution `n` of `timer1_isr`:
`SW1` feeds `debounce[0]`, `SW2` feeds `debounce[1]`. -/
def sample (p : Pins) (keynum : Nat) (n : Nat) : Bool :=
  if keynum = 0 then p.SW1 n else p.SW2 n

/-- One execution of `timer1_isr` (lines 118-152). -/
def timer1_isr (p : Pins) (t : TickState) : TickState :=
  let s0 := t.switchcount0
  let s1 := t.switchcount1
  let d0 := t.debounce0
  let d1 := t.debounce1
  -- keep resetting halfway if held long
  let s0 := if s0 > 250 then 100 else s0
  let s1 := if s1 > 250 then 100 else s1
  -- increment count if settled closed
  let s0 := if d0 &&& 0x0F = 0x00 then (s0 + 1) % 256 else 0
  let s1 := if d1 &&& 0x0F = 0x00 then (s1 + 1) % 256 else 0
  { switchcount0 := s0
    switchcount1 := s1
    -- read switch positions into sliding 8-bit window
    debounce0 := ((d0 <<< 1) ||| bitval (p.SW1 t.now)) % 256
    debounce1 := ((d1 <<< 1) ||| bitval (p.SW2 t.now)) % 256
    timerTicksNow := (t.timerTicksNow + 1) % 256
    now := t.now + 1 }

/-- The state after `n` consecutive executions of `timer1_isr`. -/
def ticks (p : Pins) : Nat → TickState → TickState
  | 0, t => t
  | n + 1, t => ticks p n (timer1_isr p t)

/-! ## Delay primitive -/

/-- The loop `while(timerTicksNow != stop);` of `_delay_ms`: every test
that finds the counter different from `stop` is followed by one execution of
`timer1_isr`.  `none` when the loop has not left after `fuel` tests. -/
def delay_loop (p : Pins) (stop : Nat) : Nat → TickState → Option TickState
  | 0, _ => none
  | fuel + 1, t =>
    if t.timerTicksNow ≠ stop then delay_loop p stop fuel (timer1_isr p t)
    else some t

/-- The function `_delay_ms(uint8_t ms)` (lines 66-70).  An 8-bit counter
that advances by one meets any 8-bit target within 255 steps, so 256 loop
tests are allowed. -/
def _delay_ms (p : Pins) (ms : Nat) (t : TickState) : Option TickState :=
  let stop := (t.timerTicksNow + ms / 10) % 256
  delay_loop p stop 256 t

/-! ## Key press classifier -/

/-- The function `getkeypress(uint8_t keynum)` (lines 174-185): the result
and the tick state at return. -/
def getkeypress (p : Pins) (keynum : Nat) (t : TickState) : Option (Nat × TickState) :=
  match switchcount t keynum with
  | none => none
  | some c =>
    if c > 150 then
      (_delay_ms p 30 t).map (fun t1 => (PRESS_LONG, t1))
    else if c ≠ 0 then
      (_delay_ms p 60 t).map (fun t1 => (PRESS_SHORT, t1))
    else some (PRESS_NONE, t)

/-! ## Temperature conversion -/

/-- Conversion of an integer value to `int8_t`: the low 8 bits, read as
two's complement. -/
def toInt8 (n : Nat) : Int :=
  if n % 256 < 128 then (n % 256 : Nat) else ((n % 256 : Nat) : Int) - 256

/-- The function `gettemp(uint16_t raw)` (lines 187-196) for the build
option `CFG_TEMP_UNIT = unit`.  `raw * 64 / d` is computed in 16-bit unsigned
arithmetic, the subtraction as well, and the result is converted to the
return type `int8_t`. -/
def gettemp (unit : Char) (raw : Nat) : Int :=
  if unit = 'F' then
    toInt8 ((169 + 65536 - (raw * 64 % 65536) / 354) % 65536)
  else
    toInt8 ((76 + 65536 - (raw * 64 % 65536) / 637) % 65536)

/-! ## Build options and collaborators -/

/-- The build options of `config.h` that `main.c` tests. -/
structure Build where
  CFG_SET_DATE_TIME : Nat
  CFG_HOUR_MODE : Nat
  CFG_TEMP_UNIT : Char
  deriving DecidableEq, Repr

/-- Display mode states (lines 47-60).  In a build without date/time editing
the four `M_SET_*` values are not declared and are never stored in `dmode`. -/
inductive display_mode where
  | M_NORMAL
  | M_SET_HOUR
  | M_SET_MINUTE
  | M_SET_MONTH
  | M_SET_DAY
  | M_TEMP_DISP
  | M_DATE_DISP
  | M_WEEKDAY_DISP
  deriving DecidableEq, Repr

open display_mode

/-- Modelled from the spec: `struct ds1302_rtc` is declared in `ds1302.h`,
which is not part of the sources; these are the TimeDate fields of the
snapshot that `main.c` reads (`h12` and `h24` are the two views of the hour
byte). -/
structure ds1302_rtc where
  h12_tenhour : Nat
  h12_hour : Nat
  h12_pm : Nat
  h24_tenhour : Nat
  tenminutes : Nat
  minutes : Nat
  tenmonth : Nat
  month : Nat
  tenday : Nat
  day : Nat
  weekday : Nat
  deriving DecidableEq, Repr

/-- Modelled from the spec: `struct ram_config` is declared outside the
sources; the only field `main.c` uses is the signed calibration offset. -/
structure ram_config where
  temp_offset : Int
  deriving DecidableEq, Repr

/-- Functions, tables and constants that `main.c` uses and that are defined
in `adc.h`, `ds1302.h` and `led.h`, outside the sources.  Reads of the outer
world (`getADCResult`, `ds_readburst`) depend on the time of the read, given
as the number of timer-1 ticks so far. -/
structure Ext where
  pins : Pins
  ledtable : Nat → Nat
  LED_BLANK : Nat
  LED_DASH : Nat
  LED_c : Nat
  LED_f : Nat
  ds_int2bcd_tens : Nat → Nat
  ds_int2bcd_ones : Nat → Nat
  getADCResult : Nat → Nat → Nat
  ds_readburst : Nat → ds1302_rtc
  ds_hours_incr : ds1302_rtc → ds1302_rtc
  ds_minutes_incr : ds1302_rtc → ds1302_rtc
  ds_month_incr : ds1302_rtc → ds1302_rtc
  ds_day_incr : ds1302_rtc → ds1302_rtc
  ds_weekday_incr : ds1302_rtc → ds1302_rtc
  /-- The result of `config.temp_offset++` from the value before. -/
  temp_offset_incr : Int → Int
  /-- The indeterminate value of the local `showDp`, which a 12-hour build
  without date/time editing reads without having assigned it. -/
  showDp_unassigned : Nat

/-- Calls that leave the core, in the order they are made. -/
inductive Call where
  | ds_hours_incr
  | ds_minutes_incr
  | ds_month_incr
  | ds_day_incr
  | ds_weekday_incr
  | ds_reset_clock
  | ds_readburst
  | ds_ram_config_write (offset : Int)
  | getADCResult (chan : Nat)
  | WDT_CLEAR
  deriving DecidableEq, Repr

def ADC_LIGHT : Nat := 6
def ADC_TEMP : Nat := 7

/-- The four-byte arrays `dbuf` and `dbufCur`. -/
structure Buf4 where
  b0 : Nat
  b1 : Nat
  b2 : Nat
  b3 : Nat
  deriving DecidableEq, Repr

/-- The read `buf[pos]`. -/
def Buf4.get (b : Buf4) (pos : Nat) : Option Nat :=
  match pos with
  | 0 => some b.b0
  | 1 => some b.b1
  | 2 => some b.b2
  | 3 => some b.b3
  | _ => none

/-- The write `buf[pos] = v` for a position inside the array. -/
def Buf4.set (b : Buf4) (pos : Nat) (v : Nat) : Buf4 :=
  match pos with
  | 0 => { b with b0 := v }
  | 1 => { b with b1 := v }
  | 2 => { b with b2 := v }
  | 3 => { b with b3 := v }
  | _ => b

/-- The memory of the program: the part owned by `timer1_isr`, the globals
of `main.c`, the two output ports, and the log of outward calls. -/
structure State where
  tick : TickState
  displaycounter : Nat
  P2 : Nat
  P3 : Nat
  RELAY : Bool
  count : Nat
  temp : Nat
  lightval : Nat
  rtc : ds1302_rtc
  config : ram_config
  dbuf : Buf4
  dbufCur : Buf4
  dmode : display_mode
  display_colon : Nat
  flash_hours : Bool
  flash_minutes : Bool
  flash_month : Bool
  flash_day : Bool
  calls : List Call
  deriving DecidableEq, Repr

/-- Append an outward call to the log. -/
def State.call (s : State) (c : Call) : State :=
  { s with calls := s.calls ++ [c] }

/-- The busy wait `_delay_ms(ms)` run by the main task. -/
def wait (e : Ext) (ms : Nat) (s : State) : Option State :=
  (_delay_ms e.pins ms s.tick).map (fun t => { s with tick := t })

/-- A call `getkeypress(keynum)` made by the main task: its result and the
state at return. -/
def key (e : Ext) (keynum : Nat) (s : State) : Option (Nat × State) :=
  (getkeypress e.pins keynum s.tick).map (fun r => (r.1, { s with tick := r.2 }))

/-- The value of a C comparison: 1 when it holds, 0 otherwise. -/
def cbool (c : Prop) [Decidable c] : Nat := if c then 1 else 0

/-! ## Display decision tree (lines 251-353) -/

/-- The branch `case M_SET_HOUR` (lines 253-263). -/
def case_M_SET_HOUR (e : Ext) (s : State) : Option State :=
  let s := { s with display_colon := DP_ON }
  let s := { s with flash_hours := !s.flash_hours }
  if !s.flash_hours then
    (key e S2 s).bind fun r =>
    let s := if r.1 ≠ 0 then { r.2.call Call.ds_hours_incr with rtc := e.ds_hours_incr r.2.rtc } else r.2
    (key e S1 s).bind fun r =>
    some (if r.1 ≠ 0 then { r.2 with dmode := M_SET_MINUTE } else r.2)
  else some s

/-- The branch `case M_SET_MINUTE` (lines 265-275). -/
def case_M_SET_MINUTE (e : Ext) (s : State) : Option State :=
  let s := { s with flash_hours := false }
  let s := { s with flash_minutes := !s.flash_minutes }
  if !s.flash_minutes then
    (key e S2 s).bind fun r =>
    let s := if r.1 ≠ 0 then { r.2.call Call.ds_minutes_incr with rtc := e.ds_minutes_incr r.2.rtc } else r.2
    (key e S1 s).bind fun r =>
    some (if r.1 ≠ 0 then { r.2 with dmode := M_NORMAL } else r.2)
  else some s

/-- The branch `case M_SET_MONTH` (lines 277-288). -/
def case_M_SET_MONTH (e : Ext) (s : State) : Option State :=
  let s := { s with flash_month := !s.flash_month }
  if !s.flash_month then
    (key e S2 s).bind fun r =>
    let s := if r.1 ≠ 0 then { r.2.call Call.ds_month_incr with rtc := e.ds_month_incr r.2.rtc } else r.2
    (key e S1 s).bind fun r =>
    some (if r.1 ≠ 0 then { r.2 with flash_month := false, dmode := M_SET_DAY } else r.2)
  else some s

/-- The branch `case M_SET_DAY` (lines 290-301). -/
def case_M_SET_DAY (e : Ext) (s : State) : Option State :=
  let s := { s with flash_day := !s.flash_day }
  if !s.flash_day then
    (key e S2 s).bind fun r =>
    let s := if r.1 ≠ 0 then { r.2.call Call.ds_day_incr with rtc := e.ds_day_incr r.2.rtc } else r.2
    (key e S1 s).bind fun r =>
    some (if r.1 ≠ 0 then { r.2 with flash_day := false, dmode := M_DATE_DISP } else r.2)
  else some s

/-- The branch `case M_TEMP_DISP` (lines 305-310). -/
def case_M_TEMP_DISP (e : Ext) (s : State) : Option State :=
  (key e S1 s).bind fun r =>
  let s := if r.1 ≠ 0 then
      { r.2 with config := { r.2.config with temp_offset := e.temp_offset_incr r.2.config.temp_offset } }
    else r.2
  (key e S2 s).bind fun r =>
  some (if r.1 ≠ 0 then { r.2 with dmode := M_DATE_DISP } else r.2)

/-- The branch `case M_DATE_DISP` (lines 312-319). -/
def case_M_DATE_DISP (b : Build) (e : Ext) (s : State) : Option State :=
  (if b.CFG_SET_DATE_TIME = 1 then
    (key e S1 s).bind fun r =>
    some (if r.1 ≠ 0 then { r.2 with dmode := M_SET_MONTH } else r.2)
  else some s).bind fun s =>
  (key e S2 s).bind fun r =>
  some (if r.1 ≠ 0 then { r.2 with dmode := M_WEEKDAY_DISP } else r.2)

/-- The branch `case M_WEEKDAY_DISP` (lines 321-328). -/
def case_M_WEEKDAY_DISP (b : Build) (e : Ext) (s : State) : Option State :=
  (if b.CFG_SET_DATE_TIME = 1 then
    (key e S1 s).bind fun r =>
    some (if r.1 ≠ 0 then
      { r.2.call Call.ds_weekday_incr with rtc := e.ds_weekday_incr r.2.rtc } else r.2)
  else some s).bind fun s =>
  (key e S2 s).bind fun r =>
  some (if r.1 ≠ 0 then { r.2 with dmode := M_NORMAL } else r.2)

/-- The test `getkeypress(S1) == PRESS_LONG && getkeypress(S2) == PRESS_LONG`
of line 341; the second call is made only when the first comparison holds. -/
def both_long (e : Ext) (s : State) : Option (Bool × State) :=
  (key e S1 s).bind fun r =>
  if r.1 = PRESS_LONG then
    (key e S2 r.2).bind fun r2 => some (decide (r2.1 = PRESS_LONG), r2.2)
  else some (false, r.2)

/-- The branch `case M_NORMAL: default:` (lines 330-351).  The arguments of
the last two classifier calls are the comparisons `S1 == PRESS_SHORT` and
`S2 == PRESS_SHORT`, as written in the source. -/
def case_M_NORMAL (b : Build) (e : Ext) (s : State) : Option State :=
  let s := if s.count % 10 < 4 then { s with display_colon := DP_ON }
    else { s with display_colon := DP_OFF }
  (if b.CFG_SET_DATE_TIME = 1 then
    let s := { s with flash_hours := false }
    let s := { s with flash_minutes := false }
    (both_long e s).bind fun r =>
    let s := if r.1 then r.2.call Call.ds_reset_clock else r.2
    (key e (cbool (S1 = PRESS_SHORT)) s).bind fun r =>
    some (if r.1 ≠ 0 then { r.2 with dmode := M_SET_HOUR } else r.2)
  else some s).bind fun s =>
  (key e (cbool (S2 = PRESS_SHORT)) s).bind fun r =>
  some (if r.1 ≠ 0 then { r.2 with dmode := M_TEMP_DISP } else r.2)

/-- The display decision tree `switch (dmode)` of lines 251-353.  Without
date/time editing the `M_SET_*` labels do not exist and such a value would
take the `default` branch. -/
def decision (b : Build) (e : Ext) (s : State) : Option State :=
  if b.CFG_SET_DATE_TIME = 1 then
    match s.dmode with
    | M_SET_HOUR => case_M_SET_HOUR e s
    | M_SET_MINUTE => case_M_SET_MINUTE e s
    | M_SET_MONTH => case_M_SET_MONTH e s
    | M_SET_DAY => case_M_SET_DAY e s
    | M_TEMP_DISP => case_M_TEMP_DISP e s
    | M_DATE_DISP => case_M_DATE_DISP b e s
    | M_WEEKDAY_DISP => case_M_WEEKDAY_DISP b e s
    | M_NORMAL => case_M_NORMAL b e s
  else
    match s.dmode with
    | M_TEMP_DISP => case_M_TEMP_DISP e s
    | M_DATE_DISP => case_M_DATE_DISP b e s
    | M_WEEKDAY_DISP => case_M_WEEKDAY_DISP b e s
    | _ => case_M_NORMAL b e s

/-! ## Display execution tree (lines 357-447) -/

/-- The macro `filldisplay(pos, val, dp)`: `dbuf[pos] = (~dp & ledtable[val])`,
the complement taken in 16-bit `int` and the result stored in a byte. -/
def filldisplay (e : Ext) (s : State) (pos val dp : Nat) : State :=
  { s with dbuf := s.dbuf.set pos (((0xFFFF ^^^ dp) &&& e.ledtable val) % 256) }

/-- The branch `case M_NORMAL` (with `M_SET_HOUR`, `M_SET_MINUTE` when
editing is built in), lines 358-401. -/
def render_time (b : Build) (e : Ext) (s : State) : State :=
  let s :=
    if b.CFG_SET_DATE_TIME = 1 ∧ s.flash_hours = true then
      let s := filldisplay e s 0 e.LED_BLANK DP_OFF
      filldisplay e s 1 e.LED_BLANK s.display_colon
    else
      let s :=
        if b.CFG_HOUR_MODE = 12 then
          filldisplay e s 0
            (if s.rtc.h12_tenhour ≠ 0 then s.rtc.h12_tenhour else e.LED_BLANK) DP_OFF
        else filldisplay e s 0 s.rtc.h24_tenhour DP_OFF
      filldisplay e s 1 s.rtc.h12_hour s.display_colon
  if b.CFG_HOUR_MODE = 12 then
    let showDp :=
      if b.CFG_SET_DATE_TIME = 1 then (if s.rtc.h12_pm ≠ 0 then DP_ON else DP_OFF)
      else e.showDp_unassigned % 256
    if b.CFG_SET_DATE_TIME = 1 ∧ s.flash_minutes = true then
      let s := filldisplay e s 2 e.LED_BLANK s.display_colon
      filldisplay e s 3 e.LED_BLANK showDp
    else
      let s := filldisplay e s 2 s.rtc.tenminutes s.display_colon
      filldisplay e s 3 s.rtc.minutes showDp
  else
    if b.CFG_SET_DATE_TIME = 1 ∧ s.flash_minutes = true then
      let s := filldisplay e s 2 e.LED_BLANK s.display_colon
      filldisplay e s 3 e.LED_BLANK DP_OFF
    else
      let s := filldisplay e s 2 s.rtc.tenminutes s.display_colon
      filldisplay e s 3 s.rtc.minutes DP_OFF

/-- The branch `case M_DATE_DISP` (with `M_SET_MONTH`, `M_SET_DAY` when
editing is built in), lines 403-428. -/
def render_date (b : Build) (e : Ext) (s : State) : State :=
  let s :=
    if b.CFG_SET_DATE_TIME = 1 ∧ s.flash_month = true then
      let s := filldisplay e s 0 e.LED_BLANK DP_OFF
      filldisplay e s 1 e.LED_BLANK DP_ON
    else
      let s := filldisplay e s 0 s.rtc.tenmonth DP_OFF
      filldisplay e s 1 s.rtc.month DP_ON
  if b.CFG_SET_DATE_TIME = 1 ∧ s.flash_day = true then
    let s := filldisplay e s 2 e.LED_BLANK DP_OFF
    filldisplay e s 3 e.LED_BLANK DP_OFF
  else
    let s := filldisplay e s 2 s.rtc.tenday DP_OFF
    filldisplay e s 3 s.rtc.day DP_OFF

/-- The branch `case M_WEEKDAY_DISP` (lines 430-435). -/
def render_weekday (e : Ext) (s : State) : State :=
  let s := filldisplay e s 0 e.LED_BLANK DP_OFF
  let s := filldisplay e s 1 e.LED_DASH DP_OFF
  let s := filldisplay e s 2 s.rtc.weekday DP_OFF
  filldisplay e s 3 e.LED_DASH DP_OFF

/-- The branch `case M_TEMP_DISP` (lines 437-446); `temp` is `uint16_t`. -/
def render_temp (b : Build) (e : Ext) (s : State) : State :=
  let s := filldisplay e s 0 (e.ds_int2bcd_tens s.temp) DP_OFF
  let s := filldisplay e s 1 (e.ds_int2bcd_ones s.temp) DP_OFF
  let s := if b.CFG_TEMP_UNIT = 'F' then filldisplay e s 2 e.LED_f DP_ON
    else filldisplay e s 2 e.LED_c DP_ON
  filldisplay e s 3 (if s.temp > 0 then e.LED_BLANK else e.LED_DASH) DP_OFF

/-- The display execution tree `switch (dmode)` of lines 357-447.  It has no
`default` branch: without date/time editing a `M_SET_*` value would match no
label and nothing would be written. -/
def render (b : Build) (e : Ext) (s : State) : State :=
  match s.dmode with
  | M_NORMAL => render_time b e s
  | M_SET_HOUR => if b.CFG_SET_DATE_TIME = 1 then render_time b e s else s
  | M_SET_MINUTE => if b.CFG_SET_DATE_TIME = 1 then render_time b e s else s
  | M_DATE_DISP => render_date b e s
  | M_SET_MONTH => if b.CFG_SET_DATE_TIME = 1 then render_date b e s else s
  | M_SET_DAY => if b.CFG_SET_DATE_TIME = 1 then render_date b e s else s
  | M_WEEKDAY_DISP => render_weekday e s
  | M_TEMP_DISP => render_temp b e s

/-! ## Display buffer pipeline (lines 449-453) -/

/-- The expression of the macro `rotateThirdPos()` on a byte:
`d & 0b11000000 | (d & 0b00111000) >> 3 | (d & 0b00000111) << 3`. -/
def rotateThirdPosByte (d : Nat) : Nat :=
  ((d &&& 0b11000000) ||| ((d &&& 0b00111000) >>> 3) ||| ((d &&& 0b00000111) <<< 3)) % 256

/-- The macro `rotateThirdPos()`: rewrite `dbuf[2]`. -/
def rotateThirdPos (s : State) : State :=
  { s with dbuf := s.dbuf.set 2 (rotateThirdPosByte s.dbuf.b2) }

/-- The four assignments `dbufCur[i] = dbuf[i]` (lines 450-453). -/
def commit (s : State) : State :=
  let s := { s with dbufCur := s.dbufCur.set 0 s.dbuf.b0 }
  let s := { s with dbufCur := s.dbufCur.set 1 s.dbuf.b1 }
  let s := { s with dbufCur := s.dbufCur.set 2 s.dbuf.b2 }
  { s with dbufCur := s.dbufCur.set 3 s.dbuf.b3 }

/-! ## Main loop (lines 229-460) -/

/-- The block `if (count % 4 == 0) ...` of lines 238-246. -/
def sense (b : Build) (e : Ext) (s : State) : State :=
  if s.count % 4 = 0 then
    let s := s.call (Call.getADCResult ADC_LIGHT)
    let s := { s with lightval := (e.getADCResult ADC_LIGHT s.tick.now >>> 5) % 256 }
    let s := s.call (Call.getADCResult ADC_TEMP)
    let s := { s with temp :=
      ((gettemp b.CFG_TEMP_UNIT (e.getADCResult ADC_TEMP s.tick.now % 65536)
        + s.config.temp_offset) % 65536).toNat }
    -- constrain dimming range
    if s.lightval < 4 then { s with lightval := 4 } else s
  else s

/-- Lines 232-248: heartbeat, periodic sampling, RTC read. -/
def loop_head (b : Build) (e : Ext) (s : State) : Option State :=
  (wait e 60 { s with RELAY := false }).bind fun s =>
  let s := { s with RELAY := true }
  let s := sense b e s
  some { s.call Call.ds_readburst with rtc := e.ds_readburst s.tick.now }

/-- Lines 455-459: save the configuration, wait, count, clear the watchdog. -/
def loop_tail (e : Ext) (s : State) : Option State :=
  let s := s.call (Call.ds_ram_config_write s.config.temp_offset)
  (wait e 40 s).bind fun s =>
  some ({ s with count := (s.count + 1) % 65536 }.call Call.WDT_CLEAR)

/-- One iteration of the `while(1)` loop of `main`. -/
def loop_body (b : Build) (e : Ext) (s : State) : Option State :=
  (loop_head b e s).bind fun s0 =>
  (decision b e s0).bind fun s1 =>
  loop_tail e (commit (rotateThirdPos (render b e s1)))

/-! ## Display refresh scheduler -/

/-- One execution of `timer0_isr` (lines 98-116); `none` when the divisor
`lightval` is zero. -/
def timer0_isr (s : State) : Option State :=
  let digit := s.displaycounter % 4
  -- turn off all digits, set high
  let s := { s with P3 := (s.P3 ||| 0x3C) % 256 }
  if s.lightval = 0 then none
  else
    let s :=
      if s.displaycounter % s.lightval < 4 then
        match s.dbufCur.get digit with
        | some v =>
          let s := { s with P2 := v }
          -- turn on selected digit, set low
          { s with P3 := (s.P3 &&& (0xFFFF ^^^ ((0x1 <<< digit) <<< 2))) % 256 }
        | none => s
      else s
    some { s with displaycounter := (s.displaycounter + 1) % 256 }

/-! ## Per-channel view of the tick scheduler -/

/-- The history byte `debounce[keynum]` of a channel (channel 1 for any
index other than 0). -/
def hist (t : TickState) (keynum : Nat) : Nat :=
  if keynum = 0 then t.debounce0 else t.debounce1

/-- The press counter `switchcount[keynum]` of a channel (channel 1 for any
index other than 0). -/
def cnt (t : TickState) (keynum : Nat) : Nat :=
  if keynum = 0 then t.switchcount0 else t.switchcount1

/-! ## Concrete inputs used in the examples -/

/-- Both switches open at every tick. -/
def pinsOpen : Pins := { SW1 := fun _ => true, SW2 := fun _ => true }

/-- Both switches closed at every tick. -/
def pinsClosed : Pins := { SW1 := fun _ => false, SW2 := fun _ => false }

/-- Switch 1 closed at every tick except for one open sample at tick 2;
switch 2 closed throughout. -/
def pinsGlitch : Pins := { SW1 := fun n => decide (n = 2), SW2 := fun _ => false }

/-- A tick state with settled-closed histories and given press counters. -/
def tickHeld (c0 c1 : Nat) : TickState :=
  { timerTicksNow := 250, debounce0 := 0, debounce1 := 0,
    switchcount0 := c0, switchcount1 := c1, now := 0 }

/-! ## Vocabulary of the mode state machine claims -/

/-- The classification `getkeypress(keynum)` yields when called in state `s`
(`none` if the call does not return). -/
def classifies (e : Ext) (s : State) (keynum : Nat) : Option Nat :=
  (getkeypress e.pins keynum s.tick).map Prod.fst

/-- The mode stored in `dmode` at the end of the decision step entered in
state `s`. -/
def modeAfter (b : Build) (e : Ext) (s : State) : Option display_mode :=
  (decision b e s).map (fun r => r.dmode)

/-- The four editing modes. -/
def is_set_mode (m : display_mode) : Bool :=
  match m with
  | M_SET_HOUR => true
  | M_SET_MINUTE => true
  | M_SET_MONTH => true
  | M_SET_DAY => true
  | _ => false

/-- The flash flag that belongs to an editing mode. -/
def flash_flag (m : display_mode) (s : State) : Bool :=
  match m with
  | M_SET_HOUR => s.flash_hours
  | M_SET_MINUTE => s.flash_minutes
  | M_SET_MONTH => s.flash_month
  | M_SET_DAY => s.flash_day
  | _ => false

/-- The RTC increment that belongs to an editing mode. -/
def set_incr (m : display_mode) : List Call :=
  match m with
  | M_SET_HOUR => [Call.ds_hours_incr]
  | M_SET_MINUTE => [Call.ds_minutes_incr]
  | M_SET_MONTH => [Call.ds_month_incr]
  | M_SET_DAY => [Call.ds_day_incr]
  | _ => []

/-- The mode an editing mode is left for. -/
def set_next (m : display_mode) : display_mode :=
  match m with
  | M_SET_HOUR => M_SET_MINUTE
  | M_SET_MINUTE => M_NORMAL
  | M_SET_MONTH => M_SET_DAY
  | M_SET_DAY => M_DATE_DISP
  | other => other

/-- A build with date/time editing, 24-hour display, Celsius. -/
def buildEdit : Build := { CFG_SET_DATE_TIME := 1, CFG_HOUR_MODE := 24, CFG_TEMP_UNIT := 'C' }

/-- A build without date/time editing. -/
def buildPlain : Build := { CFG_SET_DATE_TIME := 0, CFG_HOUR_MODE := 24, CFG_TEMP_UNIT := 'C' }

/-- An all-zero RTC snapshot. -/
def rtcZero : ds1302_rtc :=
  { h12_tenhour := 0, h12_hour := 0, h12_pm := 0, h24_tenhour := 0, tenminutes := 0,
    minutes := 0, tenmonth := 0, month := 0, tenday := 0, day := 0, weekday := 0 }

/-- Collaborators for the examples: the given pins, a glyph table that maps
an index to itself, and an RTC that always reads zero. -/
def extOf (p : Pins) : Ext :=
  { pins := p, ledtable := fun v => v, LED_BLANK := 10, LED_DASH := 11, LED_c := 12,
    LED_f := 13, ds_int2bcd_tens := fun n => n / 10 % 10, ds_int2bcd_ones := fun n => n % 10,
    getADCResult := fun _ _ => 0, ds_readburst := fun _ => rtcZero,
    ds_hours_incr := fun r => r, ds_minutes_incr := fun r => r, ds_month_incr := fun r => r,
    ds_day_incr := fun r => r, ds_weekday_incr := fun r => r,
    temp_offset_incr := fun x => x + 1, showDp_unassigned := 0 }

/-- A state in mode `m` with the given tick state, all flash flags equal to
`fl`, and everything else zero. -/
def stateOf (m : display_mode) (fl : Bool) (t : TickState) : State :=
  { tick := t, displaycounter := 0, P2 := 0, P3 := 0, RELAY := false, count := 0, temp := 0,
    lightval := 4, rtc := rtcZero, config := { temp_offset := 0 },
    dbuf := { b0 := 0, b1 := 0, b2 := 0, b3 := 0 },
    dbufCur := { b0 := 0, b1 := 0, b2 := 0, b3 := 0 },
    dmode := m, display_colon := 0, flash_hours := fl, flash_minutes := fl,
    flash_month := fl, flash_day := fl, calls := [] }

/-- Switch 1 open, switch 2 closed at every tick. -/
def pinsS2 : Pins := { SW1 := fun _ => true, SW2 := fun _ => false }

/-- Switch 1 closed, switch 2 open at every tick. -/
def pinsS1 : Pins := { SW1 := fun _ => false, SW2 := fun _ => true }

/-- Channel 0 released (history all open, counter 0), channel 1 settled
closed with counter `c1`. -/
def tickS2 (c1 : Nat) : TickState :=
  { timerTicksNow := 250, debounce0 := 0xFF, debounce1 := 0,
    switchcount0 := 0, switchcount1 := c1, now := 0 }

/-- Channel 1 released, channel 0 settled closed with counter `c0`. -/
def tickS1 (c0 : Nat) : TickState :=
  { timerTicksNow := 250, debounce0 := 0, debounce1 := 0xFF,
    switchcount0 := c0, switchcount1 := 0, now := 0 }

/-! ## Vocabulary of the main loop claims -/

/-- The mode `m` is one of the enumerated modes of the build: any mode when
editing is built in, otherwise none of the `M_SET_*` modes. -/
def modeOK (b : Build) (m : display_mode) : Prop :=
  b.CFG_SET_DATE_TIME = 1 ∨ is_set_mode m = false

/-- The computation `o` returns, in a state that satisfies `P`. -/
def Returns (P : State → Prop) (o : Option State) : Prop :=
  ∃ r, o = some r ∧ P r

/-- Rotation by 3 of the low 6 bits of a byte, the top 2 bits unchanged. -/
def rot6 (x : Nat) : Nat :=
  (x / 64) * 64 + ((x % 64) * 8 % 64 + (x % 64) / 8)

/-- The state `s` with other contents in the two display buffers. -/
def withBufs (d c : Buf4) (s : State) : State :=
  { s with dbuf := d, dbufCur := c }

/-! ## Vocabulary of the display refresh and bit-level claims -/

/-- Number of set bits among the 8 bits of a byte. -/
def popcount8 (x : Nat) : Nat :=
  ((List.range 8).filter (fun i => x.testBit i)).length

/-- The digit-enable line of digit `j` (bit `j + 2` of `P3`) is active, that
is, driven low. -/
def digit_active (P3 : Nat) (j : Nat) : Bool :=
  !(P3.testBit (j + 2))

/-- The value `timer0_isr` leaves in `P3` when it lights digit `digit`:
`P3 |= 0x3C` followed by `P3 &= ~((0x1 << digit) << 2)`. -/
def P3_lit (P3 digit : Nat) : Nat :=
  (((P3 ||| 0x3C) % 256) &&& (0xFFFF ^^^ ((0x1 <<< digit) <<< 2))) % 256

/-- The value `timer0_isr` leaves in `P3` when it lights no digit. -/
def P3_dark (P3 : Nat) : Nat :=
  (P3 ||| 0x3C) % 256

/-- Some digit-enable line is active in the port value `P3`. -/
def is_lit (P3 : Nat) : Bool :=
  digit_active P3 0 || digit_active P3 1 || digit_active P3 2 || digit_active P3 3

/-- Run `n` consecutive executions of `timer0_isr` and count those that
leave a digit lit. -/
def refresh_run : Nat → State → Option (Nat × State)
  | 0, s => some (0, s)
  | n + 1, s =>
    match timer0_isr s with
    | none => none
    | some r => (refresh_run n r).map (fun x => (x.1 + (if is_lit r.P3 then 1 else 0), x.2))

/-- Number of frame counter values `c, c+1, .., c+n-1` (modulo 256) whose
remainder modulo `D` is below 4. -/
def litCount (D : Nat) : Nat → Nat → Nat
  | 0, _ => 0
  | n + 1, c => litCount D n ((c + 1) % 256) + (if c % D < 4 then 1 else 0)

/-- A state in normal mode with frame counter `c`, dim divisor `D` and
`P3 = 0xFF`. -/
def stateDim (D c : Nat) : State :=
  { stateOf M_NORMAL false (tickHeld 0 0) with lightval := D, displaycounter := c, P3 := 0xFF }

/-- The classification `getkeypress(keynum)` yields on the tick state `t`
(`none` if the call does not return). -/
def classify (p : Pins) (keynum : Nat) (t : TickState) : Option Nat :=
  (getkeypress p keynum t).map Prod.fst

/-- Collaborators for the examples with given ADC readings: `light` on the
light channel, `temp` on the temperature channel. -/
def extAdc (p : Pins) (light temp : Nat) : Ext :=
  { extOf p with getADCResult := fun chan _ => if chan = ADC_LIGHT then light else temp }

/-- The memory when `main` enters its loop: the C start-up code has set the
globals without initialiser to zero and `dmode` to `M_NORMAL`; `ds_init`,
`ds_ram_config_init`, `Timer0Init` and `Timer1Init` have run (the second fills
`config`, here `cfg`), and none of them assigns `lightval`. -/
def powerOn (cfg : ram_config) : State :=
  { tick := { timerTicksNow := 0, debounce0 := 0, debounce1 := 0,
              switchcount0 := 0, switchcount1 := 0, now := 0 },
    displaycounter := 0, P2 := 0xFF, P3 := 0xFF, RELAY := true, count := 0, temp := 0,
    lightval := 0, rtc := rtcZero, config := cfg,
    dbuf := { b0 := 0, b1 := 0, b2 := 0, b3 := 0 },
    dbufCur := { b0 := 0, b1 := 0, b2 := 0, b3 := 0 },
    dmode := M_NORMAL, display_colon := 0, flash_hours := false, flash_minutes := false,
    flash_month := false, flash_day := false, calls := [] }

/-! ## Vocabulary of the frame and flash-flag claims -/

/-- The state `r` has a tick state that satisfies `J` and the same
`displaycounter`, `P2` and `P3` as `s`. -/
def FrameOK (J : TickState → Prop) (s r : State) : Prop :=
  J r.tick ∧ r.displaycounter = s.displaycounter ∧ r.P2 = s.P2 ∧ r.P3 = s.P3

/-- The tick state `t1` is reached from `t0` by executions of `timer1_isr`
alone, and its tick counter is a byte. -/
def TickedFrom (p : Pins) (t0 t1 : TickState) : Prop :=
  t1.timerTicksNow < 256 ∧ ∃ n, t1 = ticks p n t0

/-- One execution of `timer1_isr` seen on the whole memory. -/
def timer1_step (p : Pins) (s : State) : State :=
  { s with tick := timer1_isr p s.tick }

/-- The flash-flag invariant: a flash flag is set only in its own editing
mode. -/
def FlashInv (s : State) : Prop :=
  (s.flash_hours = true → s.dmode = M_SET_HOUR) ∧
  (s.flash_minutes = true → s.dmode = M_SET_MINUTE) ∧
  (s.flash_month = true → s.dmode = M_SET_MONTH) ∧
  (s.flash_day = true → s.dmode = M_SET_DAY)

/-- The states of the main loop at the start of an iteration: the initial
state (`dmode = M_NORMAL`, all flash flags false, a byte in the tick counter)
and every state a full iteration leads to from such a state. -/
inductive Reachable (b : Build) (e : Ext) : State → Prop where
  | start (s : State) : s.dmode = M_NORMAL → s.flash_hours = false →
      s.flash_minutes = false → s.flash_month = false → s.flash_day = false →
      s.tick.timerTicksNow < 256 → Reachable b e s
  | iter (s r : State) : Reachable b e s → loop_body b e s = some r → Reachable b e r

/-- The byte `filldisplay` stores for glyph index `val` and decimal point
`dp`. -/
def pattern (e : Ext) (val dp : Nat) : Nat :=
  ((0xFFFF ^^^ dp) &&& e.ledtable val) % 256

/-! ## Lemmas on the tick scheduler -/

theorem ticks_succ (p : Pins) (n : Nat) (t : TickState) :
    ticks p (n + 1) t = timer1_isr p (ticks p n t) := by
  induction n generalizing t with
  | zero => rfl
  | succ k ih => exact ih (timer1_isr p t)

theorem ticks_add (p : Pins) (m n : Nat) (t : TickState) :
    ticks p (m + n) t = ticks p n (ticks p m t) := by
  induction m generalizing t with
  | zero => simp [ticks]
  | succ k ih =>
    have h : k + 1 + n = (k + n) + 1 := by omega
    rw [h]
    exact ih (timer1_isr p t)

theorem ticks_now (p : Pins) (n : Nat) (t : TickState) :
    (ticks p n t).now = t.now + n := by
  induction n generalizing t with
  | zero => rfl
  | succ k ih =>
    show (ticks p k (timer1_isr p t)).now = t.now + (k + 1)
    rw [ih]
    show t.now + 1 + k = t.now + (k + 1)
    omega

theorem ticks_timerTicksNow (p : Pins) (n : Nat) (t : TickState) :
    (ticks p n t).timerTicksNow % 256 = (t.timerTicksNow + n) % 256 := by
  induction n generalizing t with
  | zero => rfl
  | succ k ih =>
    show (ticks p k (timer1_isr p t)).timerTicksNow % 256 = _
    rw [ih]
    show ((t.timerTicksNow + 1) % 256 + k) % 256 = _
    omega

theorem ticks_timerTicksNow_lt (p : Pins) (n : Nat) (t : TickState)
    (h : t.timerTicksNow < 256) : (ticks p n t).timerTicksNow < 256 := by
  induction n generalizing t with
  | zero => exact h
  | succ k ih =>
    apply ih
    show (t.timerTicksNow + 1) % 256 < 256
    omega

/-- The delay loop leaves after exactly `n` ticks when the target is `n`
steps ahead of the counter, `n < 256`, and more than `n` tests are allowed. -/
theorem delay_loop_eq (p : Pins) (n : Nat) :
    ∀ (fuel : Nat) (t : TickState), n < fuel → n < 256 → t.timerTicksNow < 256 →
      delay_loop p ((t.timerTicksNow + n) % 256) fuel t = some (ticks p n t) := by
  induction n with
  | zero =>
    intro fuel t hf _ ht
    obtain ⟨f, rfl⟩ : ∃ f, fuel = f + 1 := ⟨fuel - 1, by omega⟩
    have hmod : t.timerTicksNow % 256 = t.timerTicksNow := Nat.mod_eq_of_lt ht
    simp [delay_loop, ticks, hmod]
  | succ k ih =>
    intro fuel t hf hn ht
    obtain ⟨f, rfl⟩ : ∃ f, fuel = f + 1 := ⟨fuel - 1, by omega⟩
    have hne : t.timerTicksNow ≠ (t.timerTicksNow + (k + 1)) % 256 := by omega
    have hstop : (t.timerTicksNow + (k + 1)) % 256
        = ((timer1_isr p t).timerTicksNow + k) % 256 := by
      show _ = ((t.timerTicksNow + 1) % 256 + k) % 256
      omega
    have hlt : (timer1_isr p t).timerTicksNow < 256 := by
      show (t.timerTicksNow + 1) % 256 < 256
      omega
    rw [delay_loop, if_pos hne, hstop]
    exact ih f (timer1_isr p t) (by omega) (by omega) hlt

theorem _delay_ms_eq (p : Pins) (ms : Nat) (t : TickState)
    (hms : ms < 256) (ht : t.timerTicksNow < 256) :
    _delay_ms p ms t = some (ticks p (ms / 10) t) := by
  unfold _delay_ms
  exact delay_loop_eq p (ms / 10) 256 t (by omega) (by omega) ht

/-! ## Bit operations of the tick scheduler as arithmetic -/

theorem low_nibble_eq (d : Nat) : d &&& 0x0F = d % 16 :=
  Nat.and_pow_two_sub_one_eq_mod d 4

theorem shift_or_bit (d : Nat) (b : Bool) : (d <<< 1) ||| bitval b = 2 * d + bitval b := by
  have hb : bitval b < 2 ^ 1 := by cases b <;> simp [bitval]
  have h := Nat.mul_add_lt_is_or hb d
  rw [Nat.shiftLeft_eq, Nat.mul_comm d (2 ^ 1), ← h]

theorem bitval_le (b : Bool) : bitval b ≤ 1 := by cases b <;> simp [bitval]

theorem switchcount_eq_cnt (t : TickState) (k : Nat) (hk : k < 2) :
    switchcount t k = some (cnt t k) := by
  interval_cases k <;> rfl

theorem debounce_eq_hist (t : TickState) (k : Nat) (hk : k < 2) :
    debounce t k = some (hist t k) := by
  interval_cases k <;> rfl

/-- The history update of one tick, per channel. -/
theorem hist_timer1_isr (p : Pins) (t : TickState) (k : Nat) :
    hist (timer1_isr p t) k = (2 * hist t k + bitval (sample p k t.now)) % 256 := by
  by_cases h : k = 0
  · simp [hist, sample, h, timer1_isr, shift_or_bit]
  · simp [hist, sample, h, timer1_isr, shift_or_bit]

/-- The counter update of one tick, per channel. -/
theorem cnt_timer1_isr (p : Pins) (t : TickState) (k : Nat) :
    cnt (timer1_isr p t) k =
      if hist t k % 16 = 0 then (if cnt t k > 250 then 100 else cnt t k) + 1 else 0 := by
  have key : ∀ d c : Nat,
      (if d &&& 0x0F = 0x00 then ((if c > 250 then 100 else c) + 1) % 256 else 0)
        = if d % 16 = 0 then (if c > 250 then 100 else c) + 1 else 0 := by
    intro d c
    rw [low_nibble_eq]
    split_ifs <;> omega
  by_cases h : k = 0
  · simp only [hist, cnt, h, if_true, timer1_isr]
    exact key _ _
  · simp only [hist, cnt, h, if_false, timer1_isr]
    exact key _ _

theorem hist_ticks_succ (p : Pins) (t : TickState) (k n : Nat) :
    hist (ticks p (n + 1) t) k
      = (2 * hist (ticks p n t) k + bitval (sample p k (t.now + n))) % 256 := by
  rw [ticks_succ, hist_timer1_isr, ticks_now]

theorem cnt_ticks_succ (p : Pins) (t : TickState) (k n : Nat) :
    cnt (ticks p (n + 1) t) k =
      if hist (ticks p n t) k % 16 = 0 then
        (if cnt (ticks p n t) k > 250 then 100 else cnt (ticks p n t) k) + 1
      else 0 := by
  rw [ticks_succ, cnt_timer1_isr]

/-! ## Claims -/

/-- C1: for a channel `k` (an index for which `switchcount[k]` exists, so 0
or 1) whose counter has the value `c` when `getkeypress(k)` is called and
read, the call returns, and its result is
`PRESS_NONE` exactly when `c = 0`, `PRESS_SHORT` exactly when `1 ≤ c ≤ 150`
and `PRESS_LONG` exactly when `c > 150`. -/
theorem getkeypress_classifies (p : Pins) (k : Nat) (t : TickState) (c : Nat)
    (ht : t.timerTicksNow < 256) (hc : switchcount t k = some c) :
    ∃ r t1, getkeypress p k t = some (r, t1) ∧
      (r = PRESS_NONE ↔ c = 0) ∧
      (r = PRESS_SHORT ↔ 1 ≤ c ∧ c ≤ 150) ∧
      (r = PRESS_LONG ↔ c > 150) := by
  unfold getkeypress
  rw [hc]
  by_cases h1 : c > 150
  · refine ⟨PRESS_LONG, ticks p (30 / 10) t, ?_, ?_, ?_, ?_⟩
    · simp [h1, _delay_ms_eq p 30 t (by norm_num) ht]
    · simp [PRESS_LONG, PRESS_NONE]; omega
    · simp [PRESS_LONG, PRESS_SHORT]; omega
    · simp [h1]
  · by_cases h2 : c ≠ 0
    · refine ⟨PRESS_SHORT, ticks p (60 / 10) t, ?_, ?_, ?_, ?_⟩
      · simp [h1, h2, _delay_ms_eq p 60 t (by norm_num) ht]
      · simp [PRESS_SHORT, PRESS_NONE]; omega
      · simp; omega
      · simp [PRESS_SHORT, PRESS_LONG]; omega
    · have h0 : c = 0 := by omega
      refine ⟨PRESS_NONE, t, ?_, ?_, ?_, ?_⟩
      · simp [h0]
      · simp [h0]
      · simp [PRESS_SHORT, PRESS_NONE, h0]
      · simp [PRESS_LONG, PRESS_NONE, h0]

/-- C1 at a concrete state: channel 1 with counter 200. -/
theorem getkeypress_classifies_witness :
    ∃ r t1, getkeypress pinsClosed 1 (tickHeld 0 200) = some (r, t1) ∧
      (r = PRESS_NONE ↔ 200 = 0) ∧
      (r = PRESS_SHORT ↔ 1 ≤ 200 ∧ 200 ≤ 150) ∧
      (r = PRESS_LONG ↔ 200 > 150) :=
  getkeypress_classifies pinsClosed 1 (tickHeld 0 200) 200 (by decide) rfl

/-- C2 (as stated, refuted): with history 0 and counter 5 on channel 0 and
the switch sampled open, the updated history has a non-zero low nibble, yet
the counter is incremented to 6 instead of being reset to 0. -/
theorem timer1_isr_uses_updated_history_counterexample :
    (timer1_isr pinsOpen (tickHeld 5 0)).debounce0 &&& 0x0F ≠ 0 ∧
    (timer1_isr pinsOpen (tickHeld 5 0)).switchcount0 = 5 + 1 ∧
    ¬ ((timer1_isr pinsOpen (tickHeld 5 0)).switchcount0 =
        if (timer1_isr pinsOpen (tickHeld 5 0)).debounce0 &&& 0x0F = 0 then 5 + 1 else 0) := by
  decide

/-- C2 (amended): on every tick and for each channel, the counter is
updated from the history as it stood before this tick's sample: if the low 4
bits of that old history are all 0 the counter becomes one more than its old
value (taken as 100 when the old value exceeds 250), otherwise it becomes 0;
the sample of this tick is shifted into the history only afterwards. -/
theorem timer1_isr_uses_old_history (p : Pins) (t : TickState) :
    (timer1_isr p t).switchcount0 =
        (if t.debounce0 &&& 0x0F = 0 then
          (if t.switchcount0 > 250 then 100 else t.switchcount0) + 1 else 0) ∧
    (timer1_isr p t).switchcount1 =
        (if t.debounce1 &&& 0x0F = 0 then
          (if t.switchcount1 > 250 then 100 else t.switchcount1) + 1 else 0) ∧
    (timer1_isr p t).debounce0 = ((t.debounce0 <<< 1) ||| bitval (p.SW1 t.now)) % 256 ∧
    (timer1_isr p t).debounce1 = ((t.debounce1 <<< 1) ||| bitval (p.SW2 t.now)) % 256 := by
  refine ⟨?_, ?_, rfl, rfl⟩
  · show (if t.debounce0 &&& 0x0F = 0x00 then
        ((if t.switchcount0 > 250 then 100 else t.switchcount0) + 1) % 256 else 0) = _
    split_ifs <;> omega
  · show (if t.debounce1 &&& 0x0F = 0x00 then
        ((if t.switchcount1 > 250 then 100 else t.switchcount1) + 1) % 256 else 0) = _
    split_ifs <;> omega


/-- C7: in a Celsius build (any unit other than `'F'`), for every raw ADC
reading `raw ≤ 1023` the result of `gettemp(raw)` is the exact integer
`76 - raw*64/637` (truncating division); the 16-bit product does not
overflow, the result lies in the range of `int8_t`, and `gettemp(0) = 76`. -/
theorem gettemp_celsius_exact (unit : Char) (raw : Nat)
    (hu : unit ≠ 'F') (hraw : raw ≤ 1023) :
    gettemp unit raw = 76 - ((raw * 64 / 637 : Nat) : Int) ∧
    raw * 64 < 65536 ∧
    (-128 : Int) ≤ 76 - ((raw * 64 / 637 : Nat) : Int) ∧
    76 - ((raw * 64 / 637 : Nat) : Int) ≤ 127 ∧
    gettemp unit 0 = 76 := by
  have h0 : gettemp unit 0 = 76 := by
    simp [gettemp, hu, toInt8]
  refine ⟨?_, by omega, by omega, by omega, h0⟩
  simp only [gettemp, hu, if_false, toInt8]
  have hmod : raw * 64 % 65536 = raw * 64 := Nat.mod_eq_of_lt (by omega)
  rw [hmod]
  split_ifs <;> omega

/-- C7 at the largest reading, `raw = 1023`. -/
theorem gettemp_celsius_exact_witness :
    gettemp 'C' 1023 = 76 - ((1023 * 64 / 637 : Nat) : Int) ∧
    1023 * 64 < 65536 ∧
    (-128 : Int) ≤ 76 - ((1023 * 64 / 637 : Nat) : Int) ∧
    76 - ((1023 * 64 / 637 : Nat) : Int) ≤ 127 ∧
    gettemp 'C' 0 = 76 :=
  gettemp_celsius_exact 'C' 1023 (by decide) (by decide)

/-- C8 (the code at the failing input): in a Fahrenheit build `gettemp(0)`
computes 169, which does not fit the return type `int8_t`, and returns -87. -/
theorem gettemp_fahrenheit_zero :
    gettemp 'F' 0 = -87 ∧ gettemp 'F' 0 ≠ 169 - ((0 * 64 / 354 : Nat) : Int) := by
  decide

/-- C9: with an 8-bit counter value `t` and an argument `ms` in 0..255,
`_delay_ms(ms)` returns; it returns in the state reached after exactly
`ms/10` ticks, with `timerTicksNow = (t + ms/10) mod 256`, and not earlier:
after fewer ticks the counter differs from the target.  Any number of allowed
loop tests above `ms/10` gives the same result, and for `ms < 10` the call
returns at once, in the state it was called in. -/
theorem _delay_ms_exact (p : Pins) (ms : Nat) (t : TickState)
    (hms : ms < 256) (ht : t.timerTicksNow < 256) :
    _delay_ms p ms t = some (ticks p (ms / 10) t) ∧
    (ticks p (ms / 10) t).now = t.now + ms / 10 ∧
    (ticks p (ms / 10) t).timerTicksNow = (t.timerTicksNow + ms / 10) % 256 ∧
    (∀ j, j < ms / 10 →
      (ticks p j t).timerTicksNow ≠ (t.timerTicksNow + ms / 10) % 256) ∧
    (∀ fuel, ms / 10 < fuel →
      delay_loop p ((t.timerTicksNow + ms / 10) % 256) fuel t = some (ticks p (ms / 10) t)) ∧
    (ms < 10 → _delay_ms p ms t = some t) := by
  have hval : ∀ j, (ticks p j t).timerTicksNow = (t.timerTicksNow + j) % 256 := by
    intro j
    have h1 := ticks_timerTicksNow p j t
    have h2 := ticks_timerTicksNow_lt p j t ht
    omega
  refine ⟨_delay_ms_eq p ms t hms ht, ticks_now p _ t, hval _, ?_, ?_, ?_⟩
  · intro j hj
    rw [hval j]
    omega
  · intro fuel hf
    exact delay_loop_eq p (ms / 10) fuel t hf (by omega) ht
  · intro h
    have h0 : ms / 10 = 0 := by omega
    have := _delay_ms_eq p ms t hms ht
    rw [h0] at this
    exact this

/-- C9 at `ms = 255` from counter value 250, so that the target lies past
the wrap. -/
theorem _delay_ms_exact_witness :
    _delay_ms pinsOpen 255 (tickHeld 0 0) = some (ticks pinsOpen (255 / 10) (tickHeld 0 0)) ∧
    (ticks pinsOpen (255 / 10) (tickHeld 0 0)).now = (tickHeld 0 0).now + 255 / 10 ∧
    (ticks pinsOpen (255 / 10) (tickHeld 0 0)).timerTicksNow
      = ((tickHeld 0 0).timerTicksNow + 255 / 10) % 256 ∧
    (∀ j, j < 255 / 10 →
      (ticks pinsOpen j (tickHeld 0 0)).timerTicksNow
        ≠ ((tickHeld 0 0).timerTicksNow + 255 / 10) % 256) ∧
    (∀ fuel, 255 / 10 < fuel →
      delay_loop pinsOpen (((tickHeld 0 0).timerTicksNow + 255 / 10) % 256) fuel (tickHeld 0 0)
        = some (ticks pinsOpen (255 / 10) (tickHeld 0 0))) ∧
    (255 < 10 → _delay_ms pinsOpen 255 (tickHeld 0 0) = some (tickHeld 0 0)) :=
  _delay_ms_exact pinsOpen 255 (tickHeld 0 0) (by decide) (by decide)

/-- C10: for every channel `k` in {0, 1}, every tick state and every sample
sequence: (a) if the sample taken by tick number `n` is open, the counter of
the channel is 0 after each of the four following ticks; (b) after a tick
with at least four predecessors the counter is non-zero only if the four
samples taken before that tick were all closed; (c) once the four samples
`n .. n+3` and all samples up to `n+3+j` have been closed, the counter is at
least 1 after the tick that follows them. -/
theorem glitch_rejection (p : Pins) (t : TickState) (k : Nat) (hk : k < 2) :
    (∀ n j, sample p k (t.now + n) = true → 1 ≤ j → j ≤ 4 →
      switchcount (ticks p (n + 1 + j) t) k = some 0) ∧
    (∀ n c, 4 ≤ n → switchcount (ticks p (n + 1) t) k = some c → c ≠ 0 →
      ∀ i, 1 ≤ i → i ≤ 4 → sample p k (t.now + n - i) = false) ∧
    (∀ n j, (∀ i, i ≤ 3 + j → sample p k (t.now + n + i) = false) →
      ∃ c, switchcount (ticks p (n + 4 + j + 1) t) k = some c ∧ 1 ≤ c) := by
  refine ⟨?_, ?_, ?_⟩
  · intro n j hs h1 h4
    rw [switchcount_eq_cnt _ _ hk]
    have e1 : hist (ticks p (n + 1) t) k = (2 * hist (ticks p n t) k + bitval (sample p k (t.now + n))) % 256 :=
      hist_ticks_succ p t k n
    have e2 : hist (ticks p (n + 2) t) k = (2 * hist (ticks p (n + 1) t) k + bitval (sample p k (t.now + (n + 1)))) % 256 :=
      hist_ticks_succ p t k (n + 1)
    have e3 : hist (ticks p (n + 3) t) k = (2 * hist (ticks p (n + 2) t) k + bitval (sample p k (t.now + (n + 2)))) % 256 :=
      hist_ticks_succ p t k (n + 2)
    have e4 : hist (ticks p (n + 4) t) k = (2 * hist (ticks p (n + 3) t) k + bitval (sample p k (t.now + (n + 3)))) % 256 :=
      hist_ticks_succ p t k (n + 3)
    have b2 := bitval_le (sample p k (t.now + (n + 1)))
    have b3 := bitval_le (sample p k (t.now + (n + 2)))
    have b4 := bitval_le (sample p k (t.now + (n + 3)))
    rw [hs] at e1
    simp only [bitval, if_true] at e1
    have hj : j = 1 ∨ j = 2 ∨ j = 3 ∨ j = 4 := by omega
    rcases hj with rfl | rfl | rfl | rfl
    · have c := cnt_ticks_succ p t k (n + 1)
      rw [if_neg (by omega)] at c
      rw [c]
    · have c := cnt_ticks_succ p t k (n + 2)
      rw [if_neg (by omega)] at c
      rw [show n + 1 + 2 = n + 2 + 1 by omega, c]
    · have c := cnt_ticks_succ p t k (n + 3)
      rw [if_neg (by omega)] at c
      rw [show n + 1 + 3 = n + 3 + 1 by omega, c]
    · have c := cnt_ticks_succ p t k (n + 4)
      rw [if_neg (by omega)] at c
      rw [show n + 1 + 4 = n + 4 + 1 by omega, c]
  · intro n c hn hc hne i h1 h4
    rw [switchcount_eq_cnt _ _ hk] at hc
    have hc1 : cnt (ticks p (n + 1) t) k ≠ 0 := by
      intro h0
      rw [h0] at hc
      exact hne (Option.some.inj hc).symm
    have c := cnt_ticks_succ p t k n
    have hz : hist (ticks p n t) k % 16 = 0 := by
      by_contra hnz
      rw [if_neg hnz] at c
      exact hc1 c
    obtain ⟨m, rfl⟩ : ∃ m, n = m + 4 := ⟨n - 4, by omega⟩
    have e1 : hist (ticks p (m + 1) t) k = (2 * hist (ticks p m t) k + bitval (sample p k (t.now + m))) % 256 :=
      hist_ticks_succ p t k m
    have e2 : hist (ticks p (m + 2) t) k = (2 * hist (ticks p (m + 1) t) k + bitval (sample p k (t.now + (m + 1)))) % 256 :=
      hist_ticks_succ p t k (m + 1)
    have e3 : hist (ticks p (m + 3) t) k = (2 * hist (ticks p (m + 2) t) k + bitval (sample p k (t.now + (m + 2)))) % 256 :=
      hist_ticks_succ p t k (m + 2)
    have e4 : hist (ticks p (m + 4) t) k = (2 * hist (ticks p (m + 3) t) k + bitval (sample p k (t.now + (m + 3)))) % 256 :=
      hist_ticks_succ p t k (m + 3)
    have b1 := bitval_le (sample p k (t.now + m))
    have b2 := bitval_le (sample p k (t.now + (m + 1)))
    have b3 := bitval_le (sample p k (t.now + (m + 2)))
    have b4 := bitval_le (sample p k (t.now + (m + 3)))
    have z : ∀ b : Bool, bitval b = 0 → b = false := by
      intro b; cases b <;> simp [bitval]
    have hi : i = 1 ∨ i = 2 ∨ i = 3 ∨ i = 4 := by omega
    rcases hi with rfl | rfl | rfl | rfl
    · rw [show t.now + (m + 4) - 1 = t.now + (m + 3) by omega]
      exact z _ (by omega)
    · rw [show t.now + (m + 4) - 2 = t.now + (m + 2) by omega]
      exact z _ (by omega)
    · rw [show t.now + (m + 4) - 3 = t.now + (m + 1) by omega]
      exact z _ (by omega)
    · rw [show t.now + (m + 4) - 4 = t.now + m by omega]
      exact z _ (by omega)
  · intro n j hs
    refine ⟨cnt (ticks p (n + 4 + j + 1) t) k, switchcount_eq_cnt _ _ hk, ?_⟩
    have e1 : hist (ticks p (n + j + 1) t) k = (2 * hist (ticks p (n + j) t) k + bitval (sample p k (t.now + (n + j)))) % 256 :=
      hist_ticks_succ p t k (n + j)
    have e2 : hist (ticks p (n + j + 2) t) k = (2 * hist (ticks p (n + j + 1) t) k + bitval (sample p k (t.now + (n + j + 1)))) % 256 :=
      hist_ticks_succ p t k (n + j + 1)
    have e3 : hist (ticks p (n + j + 3) t) k = (2 * hist (ticks p (n + j + 2) t) k + bitval (sample p k (t.now + (n + j + 2)))) % 256 :=
      hist_ticks_succ p t k (n + j + 2)
    have e4 : hist (ticks p (n + j + 4) t) k = (2 * hist (ticks p (n + j + 3) t) k + bitval (sample p k (t.now + (n + j + 3)))) % 256 :=
      hist_ticks_succ p t k (n + j + 3)
    have s1 := hs j (by omega)
    have s2 := hs (j + 1) (by omega)
    have s3 := hs (j + 2) (by omega)
    have s4 := hs (j + 3) (by omega)
    rw [show t.now + (n + j) = t.now + n + j by omega, s1] at e1
    rw [show t.now + (n + j + 1) = t.now + n + (j + 1) by omega, s2] at e2
    rw [show t.now + (n + j + 2) = t.now + n + (j + 2) by omega, s3] at e3
    rw [show t.now + (n + j + 3) = t.now + n + (j + 3) by omega, s4] at e4
    simp only [bitval, Bool.false_eq_true, if_false] at e1 e2 e3 e4
    have c := cnt_ticks_succ p t k (n + j + 4)
    rw [if_pos (by omega)] at c
    rw [show n + 4 + j + 1 = n + j + 4 + 1 by omega, c]
    omega

/-- C10 for channel 0 with one open sample in a closed sequence. -/
theorem glitch_rejection_witness :
    (∀ n j, sample pinsGlitch 0 ((tickHeld 7 0).now + n) = true → 1 ≤ j → j ≤ 4 →
      switchcount (ticks pinsGlitch (n + 1 + j) (tickHeld 7 0)) 0 = some 0) ∧
    (∀ n c, 4 ≤ n → switchcount (ticks pinsGlitch (n + 1) (tickHeld 7 0)) 0 = some c → c ≠ 0 →
      ∀ i, 1 ≤ i → i ≤ 4 → sample pinsGlitch 0 ((tickHeld 7 0).now + n - i) = false) ∧
    (∀ n j, (∀ i, i ≤ 3 + j → sample pinsGlitch 0 ((tickHeld 7 0).now + n + i) = false) →
      ∃ c, switchcount (ticks pinsGlitch (n + 4 + j + 1) (tickHeld 7 0)) 0 = some c ∧ 1 ≤ c) :=
  glitch_rejection pinsGlitch (tickHeld 7 0) 0 (by decide)


/-! ## Lemmas on classifier calls of the main task -/

theorem getkeypress_none_state (p : Pins) (k : Nat) (t t1 : TickState)
    (h : getkeypress p k t = some (PRESS_NONE, t1)) : t1 = t := by
  unfold getkeypress at h
  cases hc : switchcount t k with
  | none => simp [hc] at h
  | some c =>
    simp only [hc] at h
    split_ifs at h with h1 h2
    · cases hd : _delay_ms p 30 t <;> simp [hd, PRESS_LONG, PRESS_NONE] at h
    · cases hd : _delay_ms p 60 t <;> simp [hd, PRESS_SHORT, PRESS_NONE] at h
    · simp at h
      exact h.symm

theorem classifies_some (e : Ext) (s : State) (k r : Nat)
    (h : classifies e s k = some r) :
    ∃ t1, getkeypress e.pins k s.tick = some (r, t1) := by
  unfold classifies at h
  cases hg : getkeypress e.pins k s.tick with
  | none => simp [hg] at h
  | some x =>
    simp [hg] at h
    exact ⟨x.2, by rw [← h]⟩

theorem classifies_none (e : Ext) (s : State) (k : Nat)
    (h : classifies e s k = some PRESS_NONE) :
    getkeypress e.pins k s.tick = some (PRESS_NONE, s.tick) := by
  obtain ⟨t1, ht1⟩ := classifies_some e s k PRESS_NONE h
  rw [ht1, getkeypress_none_state _ _ _ _ ht1]

/-- One "advance" step: with S1 classifying NONE and S2 classifying SHORT the
decision step moves along the display cycle. -/
theorem advance_step (b : Build) (e : Ext) (s : State)
    (h1 : classifies e s S1 = some PRESS_NONE)
    (h2 : classifies e s S2 = some PRESS_SHORT) :
    (s.dmode = M_NORMAL → modeAfter b e s = some M_TEMP_DISP) ∧
    (s.dmode = M_TEMP_DISP → modeAfter b e s = some M_DATE_DISP) ∧
    (s.dmode = M_DATE_DISP → modeAfter b e s = some M_WEEKDAY_DISP) ∧
    (s.dmode = M_WEEKDAY_DISP → modeAfter b e s = some M_NORMAL) := by
  have g0 := classifies_none e s S1 h1
  obtain ⟨t1, g1⟩ := classifies_some e s S2 PRESS_SHORT h2
  simp only [S1, S2, PRESS_NONE, PRESS_SHORT] at g0 g1
  refine ⟨?_, ?_, ?_, ?_⟩ <;> intro hm <;> by_cases hb : b.CFG_SET_DATE_TIME = 1 <;>
    by_cases hc : s.count % 10 < 4 <;>
    simp [modeAfter, decision, case_M_NORMAL, case_M_TEMP_DISP, case_M_DATE_DISP,
      case_M_WEEKDAY_DISP, both_long, key, cbool, S1, S2, PRESS_SHORT, PRESS_LONG,
      hm, hb, hc, g0, g1]

/-- C3: starting with `dmode = M_NORMAL`, four consecutive decision steps
(each entered with the mode the previous one left), in each of which channel
S2 classifies `PRESS_SHORT` and channel S1 classifies `PRESS_NONE`, take
`dmode` to `M_TEMP_DISP`, `M_DATE_DISP`, `M_WEEKDAY_DISP` and back to
`M_NORMAL`, whatever the build options are. -/
theorem mode_round_trip (b : Build) (e : Ext) (s1 s2 s3 s4 : State)
    (h0 : s1.dmode = M_NORMAL)
    (n1 : classifies e s1 S1 = some PRESS_NONE) (a1 : classifies e s1 S2 = some PRESS_SHORT)
    (n2 : classifies e s2 S1 = some PRESS_NONE) (a2 : classifies e s2 S2 = some PRESS_SHORT)
    (n3 : classifies e s3 S1 = some PRESS_NONE) (a3 : classifies e s3 S2 = some PRESS_SHORT)
    (n4 : classifies e s4 S1 = some PRESS_NONE) (a4 : classifies e s4 S2 = some PRESS_SHORT)
    (c2 : some s2.dmode = modeAfter b e s1)
    (c3 : some s3.dmode = modeAfter b e s2)
    (c4 : some s4.dmode = modeAfter b e s3) :
    modeAfter b e s1 = some M_TEMP_DISP ∧
    modeAfter b e s2 = some M_DATE_DISP ∧
    modeAfter b e s3 = some M_WEEKDAY_DISP ∧
    modeAfter b e s4 = some M_NORMAL := by
  have r1 := (advance_step b e s1 n1 a1).1 h0
  rw [r1] at c2
  have r2 := (advance_step b e s2 n2 a2).2.1 (Option.some.inj c2)
  rw [r2] at c3
  have r3 := (advance_step b e s3 n3 a3).2.2.1 (Option.some.inj c3)
  rw [r3] at c4
  have r4 := (advance_step b e s4 n4 a4).2.2.2 (Option.some.inj c4)
  exact ⟨r1, r2, r3, r4⟩


/-- C3 at concrete states: S2 held for a short time, S1 released. -/
theorem mode_round_trip_witness :
    modeAfter buildEdit (extOf pinsS2) (stateOf M_NORMAL false (tickS2 5)) = some M_TEMP_DISP ∧
    modeAfter buildEdit (extOf pinsS2) (stateOf M_TEMP_DISP false (tickS2 21))
      = some M_DATE_DISP ∧
    modeAfter buildEdit (extOf pinsS2) (stateOf M_DATE_DISP false (tickS2 37))
      = some M_WEEKDAY_DISP ∧
    modeAfter buildEdit (extOf pinsS2) (stateOf M_WEEKDAY_DISP false (tickS2 53))
      = some M_NORMAL :=
  mode_round_trip buildEdit (extOf pinsS2)
    (stateOf M_NORMAL false (tickS2 5)) (stateOf M_TEMP_DISP false (tickS2 21))
    (stateOf M_DATE_DISP false (tickS2 37)) (stateOf M_WEEKDAY_DISP false (tickS2 53))
    rfl (by decide) (by decide) (by decide) (by decide) (by decide) (by decide)
    (by decide) (by decide) (by decide) (by decide) (by decide)


theorem getkeypress_total (p : Pins) (k : Nat) (t : TickState)
    (hk : k < 2) (ht : t.timerTicksNow < 256) :
    ∃ r t1, getkeypress p k t = some (r, t1) ∧ t1.timerTicksNow < 256 := by
  unfold getkeypress
  rw [switchcount_eq_cnt t k hk]
  simp only [_delay_ms_eq p 30 t (by norm_num) ht, _delay_ms_eq p 60 t (by norm_num) ht,
    Option.map_some']
  split_ifs
  · exact ⟨_, _, rfl, ticks_timerTicksNow_lt p _ t ht⟩
  · exact ⟨_, _, rfl, ticks_timerTicksNow_lt p _ t ht⟩
  · exact ⟨_, _, rfl, ht⟩

/-- C4 (the code at the failing input): in `M_NORMAL` with editing built in,
both switches held closed and both counters above 150 during the whole step
(200 at entry, 212 at most), both channels classify `PRESS_LONG`, the decision
step calls `ds_reset_clock` and nothing else, and it leaves `dmode` at
`M_TEMP_DISP`, not at `M_NORMAL`. -/
theorem normal_both_long_changes_mode :
    classifies (extOf pinsClosed) (stateOf M_NORMAL false (tickHeld 200 200)) S1
      = some PRESS_LONG ∧
    classifies (extOf pinsClosed) (stateOf M_NORMAL false (tickHeld 200 200)) S2
      = some PRESS_LONG ∧
    (∀ n, n ≤ 12 →
      150 < (ticks pinsClosed n (tickHeld 200 200)).switchcount0 ∧
      150 < (ticks pinsClosed n (tickHeld 200 200)).switchcount1) ∧
    (decision buildEdit (extOf pinsClosed) (stateOf M_NORMAL false (tickHeld 200 200))).map
        (fun r => (r.dmode, r.calls, r.tick.now))
      = some (M_TEMP_DISP, [Call.ds_reset_clock], 12) := by
  decide

/-- C5 (as stated, refuted), with "adjust" = channel S1 and "advance" =
channel S2 as in the display modes: in `M_SET_HOUR` with the flash flag false
after the toggle, a short press on S1 alone invokes no hour increment and
moves the mode to `M_SET_MINUTE`, and a short press on S2 alone invokes the
hour increment and leaves the mode at `M_SET_HOUR`. -/
theorem set_hour_roles_counterexample :
    (classifies (extOf pinsS1) (stateOf M_SET_HOUR true (tickS1 5)) S1 = some PRESS_SHORT ∧
     classifies (extOf pinsS1) (stateOf M_SET_HOUR true (tickS1 5)) S2 = some PRESS_NONE ∧
     (decision buildEdit (extOf pinsS1) (stateOf M_SET_HOUR true (tickS1 5))).map
        (fun r => (r.flash_hours, r.dmode, r.calls)) = some (false, M_SET_MINUTE, [])) ∧
    (classifies (extOf pinsS2) (stateOf M_SET_HOUR true (tickS2 5)) S1 = some PRESS_NONE ∧
     classifies (extOf pinsS2) (stateOf M_SET_HOUR true (tickS2 5)) S2 = some PRESS_SHORT ∧
     (decision buildEdit (extOf pinsS2) (stateOf M_SET_HOUR true (tickS2 5))).map
        (fun r => (r.flash_hours, r.dmode, r.calls))
        = some (false, M_SET_HOUR, [Call.ds_hours_incr])) := by
  decide

/-- C5 (amended): with editing built in, a decision step in one of
`M_SET_HOUR`, `M_SET_MINUTE`, `M_SET_MONTH`, `M_SET_DAY` returns and toggles
that mode's flash flag.  If the flag is true after the toggle, no outward call
is made, `dmode` is unchanged and no classifier call is made (no time
passes).  If it is false after the toggle, channel S2 is classified first and
a non-NONE result invokes exactly the matching increment (hour, minute, month,
day); channel S1 is classified next and a non-NONE result moves the mode
`SET_HOUR → SET_MINUTE`, `SET_MINUTE → NORMAL`, `SET_MONTH → SET_DAY`,
`SET_DAY → DATE_DISP`; otherwise the mode is unchanged. -/
theorem set_mode_flash_gated (b : Build) (e : Ext) (s : State)
    (hb : b.CFG_SET_DATE_TIME = 1) (hm : is_set_mode s.dmode = true)
    (hwf : s.tick.timerTicksNow < 256) :
    ∃ r2 t2 r1 t1 r,
      getkeypress e.pins S2 s.tick = some (r2, t2) ∧
      getkeypress e.pins S1 t2 = some (r1, t1) ∧
      decision b e s = some r ∧
      flash_flag s.dmode r = !flash_flag s.dmode s ∧
      (flash_flag s.dmode s = false →
        r.calls = s.calls ∧ r.dmode = s.dmode ∧ r.tick = s.tick) ∧
      (flash_flag s.dmode s = true →
        r.calls = s.calls ++ (if r2 ≠ PRESS_NONE then set_incr s.dmode else []) ∧
        r.dmode = (if r1 ≠ PRESS_NONE then set_next s.dmode else s.dmode) ∧
        r.tick = t1) := by
  obtain ⟨r2, t2, g2, hwf2⟩ := getkeypress_total e.pins S2 s.tick (by decide) hwf
  obtain ⟨r1, t1, g1, _⟩ := getkeypress_total e.pins S1 t2 (by decide) hwf2
  simp only [S1, S2] at g1 g2
  cases hmode : s.dmode <;> simp [hmode, is_set_mode] at hm
  · -- M_SET_HOUR
    cases hf : s.flash_hours <;> by_cases h1 : r1 = 0 <;> by_cases h2 : r2 = 0 <;>
      refine ⟨r2, t2, r1, t1, ?_⟩ <;>
      simp [decision, hb, hmode, case_M_SET_HOUR, hf, key, S1, S2, g1, g2, h1, h2,
        flash_flag, State.call, set_incr, set_next, PRESS_NONE]
  · -- M_SET_MINUTE
    cases hf : s.flash_minutes <;> by_cases h1 : r1 = 0 <;> by_cases h2 : r2 = 0 <;>
      refine ⟨r2, t2, r1, t1, ?_⟩ <;>
      simp [decision, hb, hmode, case_M_SET_MINUTE, hf, key, S1, S2, g1, g2, h1, h2,
        flash_flag, State.call, set_incr, set_next, PRESS_NONE]
  · -- M_SET_MONTH
    cases hf : s.flash_month <;> by_cases h1 : r1 = 0 <;> by_cases h2 : r2 = 0 <;>
      refine ⟨r2, t2, r1, t1, ?_⟩ <;>
      simp [decision, hb, hmode, case_M_SET_MONTH, hf, key, S1, S2, g1, g2, h1, h2,
        flash_flag, State.call, set_incr, set_next, PRESS_NONE]
  · -- M_SET_DAY
    cases hf : s.flash_day <;> by_cases h1 : r1 = 0 <;> by_cases h2 : r2 = 0 <;>
      refine ⟨r2, t2, r1, t1, ?_⟩ <;>
      simp [decision, hb, hmode, case_M_SET_DAY, hf, key, S1, S2, g1, g2, h1, h2,
        flash_flag, State.call, set_incr, set_next, PRESS_NONE]

/-- C5 (amended) at a concrete state: `M_SET_HOUR`, flag false after the
toggle, S2 pressed. -/
theorem set_mode_flash_gated_witness :
    ∃ r2 t2 r1 t1 r,
      getkeypress (extOf pinsS2).pins S2 (stateOf M_SET_HOUR true (tickS2 5)).tick
        = some (r2, t2) ∧
      getkeypress (extOf pinsS2).pins S1 t2 = some (r1, t1) ∧
      decision buildEdit (extOf pinsS2) (stateOf M_SET_HOUR true (tickS2 5)) = some r ∧
      flash_flag (stateOf M_SET_HOUR true (tickS2 5)).dmode r
        = !flash_flag (stateOf M_SET_HOUR true (tickS2 5)).dmode
            (stateOf M_SET_HOUR true (tickS2 5)) ∧
      (flash_flag (stateOf M_SET_HOUR true (tickS2 5)).dmode
          (stateOf M_SET_HOUR true (tickS2 5)) = false →
        r.calls = (stateOf M_SET_HOUR true (tickS2 5)).calls ∧
        r.dmode = (stateOf M_SET_HOUR true (tickS2 5)).dmode ∧
        r.tick = (stateOf M_SET_HOUR true (tickS2 5)).tick) ∧
      (flash_flag (stateOf M_SET_HOUR true (tickS2 5)).dmode
          (stateOf M_SET_HOUR true (tickS2 5)) = true →
        r.calls = (stateOf M_SET_HOUR true (tickS2 5)).calls
          ++ (if r2 ≠ PRESS_NONE then set_incr (stateOf M_SET_HOUR true (tickS2 5)).dmode
              else []) ∧
        r.dmode = (if r1 ≠ PRESS_NONE then set_next (stateOf M_SET_HOUR true (tickS2 5)).dmode
          else (stateOf M_SET_HOUR true (tickS2 5)).dmode) ∧
        r.tick = t1) :=
  set_mode_flash_gated buildEdit (extOf pinsS2) (stateOf M_SET_HOUR true (tickS2 5))
    rfl rfl (by decide)

/-! ## The main loop returns -/

theorem key_bind (e : Ext) (k : Nat) (s : State) (f : Nat × State → Option State)
    (P : State → Prop) (hk : k < 2) (hwf : s.tick.timerTicksNow < 256)
    (h : ∀ r t1, t1.timerTicksNow < 256 → Returns P (f (r, { s with tick := t1 }))) :
    Returns P ((key e k s).bind f) := by
  obtain ⟨r, t1, g, w⟩ := getkeypress_total e.pins k s.tick hk hwf
  simp only [key, g, Option.map_some', Option.some_bind]
  exact h r t1 w

theorem case_M_TEMP_DISP_returns (b : Build) (e : Ext) (s : State)
    (hwf : s.tick.timerTicksNow < 256) (hm : modeOK b s.dmode) :
    Returns (fun r => r.tick.timerTicksNow < 256 ∧ modeOK b r.dmode)
      (case_M_TEMP_DISP e s) := by
  unfold case_M_TEMP_DISP
  apply key_bind _ _ _ _ _ (by decide) hwf
  intro r t1 h1
  apply key_bind _ _ _ _ _ (by decide) (by dsimp only; split_ifs <;> exact h1)
  intro r2 t2 h2
  refine ⟨_, rfl, ?_, ?_⟩
  · dsimp only; split_ifs <;> exact h2
  · dsimp only; split_ifs <;> first | exact hm | exact Or.inr rfl


theorem returns_bind (o : Option State) (f : State → Option State) (Q P : State → Prop)
    (ho : Returns Q o) (h : ∀ r, Q r → Returns P (f r)) : Returns P (o.bind f) := by
  obtain ⟨r, rfl, hr⟩ := ho
  exact h r hr

theorem both_long_bind (e : Ext) (s : State) (f : Bool × State → Option State)
    (P : State → Prop) (hwf : s.tick.timerTicksNow < 256)
    (h : ∀ r t1, t1.timerTicksNow < 256 → Returns P (f (r, { s with tick := t1 }))) :
    Returns P ((both_long e s).bind f) := by
  obtain ⟨ra, ta, ga, wa⟩ := getkeypress_total e.pins S1 s.tick (by decide) hwf
  obtain ⟨rb, tb, gb, wb⟩ := getkeypress_total e.pins S2 ta (by decide) wa
  by_cases hl : ra = PRESS_LONG
  · simp only [both_long, key, ga, gb, hl, Option.map_some', Option.some_bind, if_true]
    exact h _ tb wb
  · simp only [both_long, key, ga, hl, Option.map_some', Option.some_bind, if_false]
    exact h _ ta wa

theorem case_M_DATE_DISP_returns (b : Build) (e : Ext) (s : State)
    (hwf : s.tick.timerTicksNow < 256) (hm : modeOK b s.dmode) :
    Returns (fun r => r.tick.timerTicksNow < 256 ∧ modeOK b r.dmode)
      (case_M_DATE_DISP b e s) := by
  unfold case_M_DATE_DISP
  apply returns_bind _ _ (fun r => r.tick.timerTicksNow < 256 ∧ modeOK b r.dmode)
  · by_cases hb : b.CFG_SET_DATE_TIME = 1
    · rw [if_pos hb]
      apply key_bind _ _ _ _ _ (by decide) hwf
      intro r t1 h1
      refine ⟨_, rfl, ?_, ?_⟩
      · dsimp only; split_ifs <;> exact h1
      · exact Or.inl hb
    · rw [if_neg hb]
      exact ⟨_, rfl, hwf, hm⟩
  · intro s0 hs0
    apply key_bind _ _ _ _ _ (by decide) hs0.1
    intro r2 t2 h2
    refine ⟨_, rfl, ?_, ?_⟩
    · dsimp only; split_ifs <;> exact h2
    · dsimp only; split_ifs <;> first | exact hs0.2 | exact Or.inr rfl

theorem case_M_WEEKDAY_DISP_returns (b : Build) (e : Ext) (s : State)
    (hwf : s.tick.timerTicksNow < 256) (hm : modeOK b s.dmode) :
    Returns (fun r => r.tick.timerTicksNow < 256 ∧ modeOK b r.dmode)
      (case_M_WEEKDAY_DISP b e s) := by
  unfold case_M_WEEKDAY_DISP
  apply returns_bind _ _ (fun r => r.tick.timerTicksNow < 256 ∧ modeOK b r.dmode)
  · by_cases hb : b.CFG_SET_DATE_TIME = 1
    · rw [if_pos hb]
      apply key_bind _ _ _ _ _ (by decide) hwf
      intro r t1 h1
      refine ⟨_, rfl, ?_, ?_⟩
      · dsimp only; split_ifs <;> exact h1
      · exact Or.inl hb
    · rw [if_neg hb]
      exact ⟨_, rfl, hwf, hm⟩
  · intro s0 hs0
    apply key_bind _ _ _ _ _ (by decide) hs0.1
    intro r2 t2 h2
    refine ⟨_, rfl, ?_, ?_⟩
    · dsimp only; split_ifs <;> exact h2
    · dsimp only; split_ifs <;> first | exact hs0.2 | exact Or.inr rfl

theorem case_M_NORMAL_returns (b : Build) (e : Ext) (s : State)
    (hwf : s.tick.timerTicksNow < 256) (hm : modeOK b s.dmode) :
    Returns (fun r => r.tick.timerTicksNow < 256 ∧ modeOK b r.dmode)
      (case_M_NORMAL b e s) := by
  unfold case_M_NORMAL
  apply returns_bind _ _ (fun r => r.tick.timerTicksNow < 256 ∧ modeOK b r.dmode)
  · by_cases hb : b.CFG_SET_DATE_TIME = 1
    · rw [if_pos hb]
      apply both_long_bind _ _ _ _ (by dsimp only; split_ifs <;> exact hwf)
      intro r t1 h1
      apply key_bind _ _ _ _ _ (by decide) (by dsimp only; split_ifs <;> exact h1)
      intro r2 t2 h2
      refine ⟨_, rfl, ?_, ?_⟩
      · dsimp only; split_ifs <;> exact h2
      · exact Or.inl hb
    · rw [if_neg hb]
      refine ⟨_, rfl, ?_, ?_⟩
      · dsimp only; split_ifs <;> exact hwf
      · dsimp only; split_ifs <;> exact hm
  · intro s0 hs0
    apply key_bind _ _ _ _ _ (by decide) hs0.1
    intro r2 t2 h2
    refine ⟨_, rfl, ?_, ?_⟩
    · dsimp only; split_ifs <;> exact h2
    · dsimp only; split_ifs <;> first | exact hs0.2 | exact Or.inr rfl

theorem case_M_SET_returns (b : Build) (e : Ext) (s : State)
    (hwf : s.tick.timerTicksNow < 256) (hb : b.CFG_SET_DATE_TIME = 1) :
    Returns (fun r => r.tick.timerTicksNow < 256 ∧ modeOK b r.dmode) (case_M_SET_HOUR e s) ∧
    Returns (fun r => r.tick.timerTicksNow < 256 ∧ modeOK b r.dmode) (case_M_SET_MINUTE e s) ∧
    Returns (fun r => r.tick.timerTicksNow < 256 ∧ modeOK b r.dmode) (case_M_SET_MONTH e s) ∧
    Returns (fun r => r.tick.timerTicksNow < 256 ∧ modeOK b r.dmode) (case_M_SET_DAY e s) := by
  refine ⟨?_, ?_, ?_, ?_⟩
  · unfold case_M_SET_HOUR
    dsimp only
    split_ifs
    · apply key_bind _ _ _ _ _ (by decide) (by exact hwf)
      intro r t1 h1
      apply key_bind _ _ _ _ _ (by decide) (by dsimp only [State.call]; split_ifs <;> exact h1)
      intro r2 t2 h2
      exact ⟨_, rfl, by dsimp only; split_ifs <;> exact h2, Or.inl hb⟩
    · exact ⟨_, rfl, hwf, Or.inl hb⟩
  · unfold case_M_SET_MINUTE
    dsimp only
    split_ifs
    · apply key_bind _ _ _ _ _ (by decide) (by exact hwf)
      intro r t1 h1
      apply key_bind _ _ _ _ _ (by decide) (by dsimp only [State.call]; split_ifs <;> exact h1)
      intro r2 t2 h2
      exact ⟨_, rfl, by dsimp only; split_ifs <;> exact h2, Or.inl hb⟩
    · exact ⟨_, rfl, hwf, Or.inl hb⟩
  · unfold case_M_SET_MONTH
    dsimp only
    split_ifs
    · apply key_bind _ _ _ _ _ (by decide) (by exact hwf)
      intro r t1 h1
      apply key_bind _ _ _ _ _ (by decide) (by dsimp only [State.call]; split_ifs <;> exact h1)
      intro r2 t2 h2
      exact ⟨_, rfl, by dsimp only; split_ifs <;> exact h2, Or.inl hb⟩
    · exact ⟨_, rfl, hwf, Or.inl hb⟩
  · unfold case_M_SET_DAY
    dsimp only
    split_ifs
    · apply key_bind _ _ _ _ _ (by decide) (by exact hwf)
      intro r t1 h1
      apply key_bind _ _ _ _ _ (by decide) (by dsimp only [State.call]; split_ifs <;> exact h1)
      intro r2 t2 h2
      exact ⟨_, rfl, by dsimp only; split_ifs <;> exact h2, Or.inl hb⟩
    · exact ⟨_, rfl, hwf, Or.inl hb⟩

/-- The decision step returns, with an 8-bit tick counter and an enumerated
mode, when entered with them. -/
theorem decision_returns (b : Build) (e : Ext) (s : State)
    (hwf : s.tick.timerTicksNow < 256) (hm : modeOK b s.dmode) :
    Returns (fun r => r.tick.timerTicksNow < 256 ∧ modeOK b r.dmode) (decision b e s) := by
  unfold decision
  by_cases hb : b.CFG_SET_DATE_TIME = 1
  · rw [if_pos hb]
    cases hmode : s.dmode <;> dsimp only
    · exact case_M_NORMAL_returns b e s hwf hm
    · exact (case_M_SET_returns b e s hwf hb).1
    · exact (case_M_SET_returns b e s hwf hb).2.1
    · exact (case_M_SET_returns b e s hwf hb).2.2.1
    · exact (case_M_SET_returns b e s hwf hb).2.2.2
    · exact case_M_TEMP_DISP_returns b e s hwf hm
    · exact case_M_DATE_DISP_returns b e s hwf hm
    · exact case_M_WEEKDAY_DISP_returns b e s hwf hm
  · rw [if_neg hb]
    cases hmode : s.dmode <;> dsimp only
    · exact case_M_NORMAL_returns b e s hwf hm
    · exact case_M_NORMAL_returns b e s hwf hm
    · exact case_M_NORMAL_returns b e s hwf hm
    · exact case_M_NORMAL_returns b e s hwf hm
    · exact case_M_NORMAL_returns b e s hwf hm
    · exact case_M_TEMP_DISP_returns b e s hwf hm
    · exact case_M_DATE_DISP_returns b e s hwf hm
    · exact case_M_WEEKDAY_DISP_returns b e s hwf hm


/-! ## Render and commit -/

set_option maxRecDepth 100000 in
theorem rotateThirdPosByte_eq_rot6 : ∀ x, x < 256 → rotateThirdPosByte x = rot6 x := by
  decide

theorem render_time_facts (b : Build) (e : Ext) (s : State) (d c : Buf4) :
    (render_time b e { s with dbuf := d, dbufCur := c }).dbuf = (render_time b e s).dbuf ∧
    (render_time b e s).dbuf.b2 < 256 ∧ (render_time b e s).tick = s.tick := by
  have hmod : ∀ x : Nat, x % 256 < 256 := fun x => Nat.mod_lt x (by norm_num)
  by_cases hb : b.CFG_SET_DATE_TIME = 1 <;> by_cases h12 : b.CFG_HOUR_MODE = 12 <;>
    cases hfh : s.flash_hours <;> cases hfm : s.flash_minutes <;>
    simp [render_time, filldisplay, Buf4.set, hb, h12, hfh, hfm, hmod]

theorem render_date_facts (b : Build) (e : Ext) (s : State) (d c : Buf4) :
    (render_date b e { s with dbuf := d, dbufCur := c }).dbuf = (render_date b e s).dbuf ∧
    (render_date b e s).dbuf.b2 < 256 ∧ (render_date b e s).tick = s.tick := by
  have hmod : ∀ x : Nat, x % 256 < 256 := fun x => Nat.mod_lt x (by norm_num)
  by_cases hb : b.CFG_SET_DATE_TIME = 1 <;>
    cases hfh : s.flash_month <;> cases hfm : s.flash_day <;>
    simp [render_date, filldisplay, Buf4.set, hb, hfh, hfm, hmod]

theorem render_weekday_facts (e : Ext) (s : State) (d c : Buf4) :
    (render_weekday e { s with dbuf := d, dbufCur := c }).dbuf = (render_weekday e s).dbuf ∧
    (render_weekday e s).dbuf.b2 < 256 ∧ (render_weekday e s).tick = s.tick := by
  have hmod : ∀ x : Nat, x % 256 < 256 := fun x => Nat.mod_lt x (by norm_num)
  simp [render_weekday, filldisplay, Buf4.set, hmod]

theorem render_temp_facts (b : Build) (e : Ext) (s : State) (d c : Buf4) :
    (render_temp b e { s with dbuf := d, dbufCur := c }).dbuf = (render_temp b e s).dbuf ∧
    (render_temp b e s).dbuf.b2 < 256 ∧ (render_temp b e s).tick = s.tick := by
  have hmod : ∀ x : Nat, x % 256 < 256 := fun x => Nat.mod_lt x (by norm_num)
  by_cases hu : b.CFG_TEMP_UNIT = 'F' <;>
    simp [render_temp, filldisplay, Buf4.set, hu, hmod]

theorem render_select (b : Build) (e : Ext) (s : State) (hm : modeOK b s.dmode) :
    ∃ f : State → State,
      (f = render_time b e ∨ f = render_date b e ∨ f = render_weekday e ∨ f = render_temp b e) ∧
      ∀ s1 : State, s1.dmode = s.dmode → render b e s1 = f s1 := by
  rcases hm with hb | hs
  · cases hmode : s.dmode
    · exact ⟨_, Or.inl rfl, fun s1 h => by simp only [render, h, hmode]⟩
    · exact ⟨_, Or.inl rfl, fun s1 h => by simp only [render, h, hmode, hb, if_true]⟩
    · exact ⟨_, Or.inl rfl, fun s1 h => by simp only [render, h, hmode, hb, if_true]⟩
    · exact ⟨_, Or.inr (Or.inl rfl), fun s1 h => by simp only [render, h, hmode, hb, if_true]⟩
    · exact ⟨_, Or.inr (Or.inl rfl), fun s1 h => by simp only [render, h, hmode, hb, if_true]⟩
    · exact ⟨_, Or.inr (Or.inr (Or.inr rfl)), fun s1 h => by simp only [render, h, hmode]⟩
    · exact ⟨_, Or.inr (Or.inl rfl), fun s1 h => by simp only [render, h, hmode]⟩
    · exact ⟨_, Or.inr (Or.inr (Or.inl rfl)), fun s1 h => by simp only [render, h, hmode]⟩
  · cases hmode : s.dmode <;> simp [hmode, is_set_mode] at hs
    · exact ⟨_, Or.inl rfl, fun s1 h => by simp only [render, h, hmode]⟩
    · exact ⟨_, Or.inr (Or.inr (Or.inr rfl)), fun s1 h => by simp only [render, h, hmode]⟩
    · exact ⟨_, Or.inr (Or.inl rfl), fun s1 h => by simp only [render, h, hmode]⟩
    · exact ⟨_, Or.inr (Or.inr (Or.inl rfl)), fun s1 h => by simp only [render, h, hmode]⟩

/-- The render step writes all four slots of `dbuf`, whatever they held,
in every enumerated mode of the build; slot 2 is a byte; the tick state is
not touched. -/
theorem render_facts (b : Build) (e : Ext) (s : State) (d c : Buf4)
    (hm : modeOK b s.dmode) :
    (render b e { s with dbuf := d, dbufCur := c }).dbuf = (render b e s).dbuf ∧
    (render b e s).dbuf.b2 < 256 ∧ (render b e s).tick = s.tick := by
  obtain ⟨f, hf, hr⟩ := render_select b e s hm
  rw [hr { s with dbuf := d, dbufCur := c } rfl, hr s rfl]
  rcases hf with rfl | rfl | rfl | rfl
  · exact render_time_facts b e s d c
  · exact render_date_facts b e s d c
  · exact render_weekday_facts e s d c
  · exact render_temp_facts b e s d c


/-! ## The buffers left by an earlier iteration are not read -/

theorem key_bind_bufs (d c : Buf4) (e : Ext) (k : Nat) (s1 s : State)
    (f1 f : Nat × State → Option State) (hs : s1 = withBufs d c s)
    (h : ∀ r t1, f1 (r, { withBufs d c s with tick := t1 })
      = (f (r, { s with tick := t1 })).map (withBufs d c)) :
    (key e k s1).bind f1 = ((key e k s).bind f).map (withBufs d c) := by
  subst hs
  unfold key
  cases hg : getkeypress e.pins k s.tick with
  | none =>
    have : getkeypress e.pins k (withBufs d c s).tick = none := hg
    simp [this]
  | some x =>
    have : getkeypress e.pins k (withBufs d c s).tick = some x := hg
    simp only [this, Option.map_some', Option.some_bind]
    exact h x.1 x.2

theorem bind_bufs (d c : Buf4) (o1 o : Option State) (f : State → Option State)
    (ho : o1 = o.map (withBufs d c))
    (h : ∀ r, f (withBufs d c r) = (f r).map (withBufs d c)) :
    o1.bind f = (o.bind f).map (withBufs d c) := by
  subst ho
  cases o with
  | none => rfl
  | some r => exact h r

theorem case_M_TEMP_DISP_bufs (d c : Buf4) (e : Ext) (s : State) :
    case_M_TEMP_DISP e (withBufs d c s) = (case_M_TEMP_DISP e s).map (withBufs d c) := by
  unfold case_M_TEMP_DISP
  apply key_bind_bufs d c _ _ _ _ _ _ rfl
  intro r t1
  apply key_bind_bufs d c _ _ _ _ _ _ (by dsimp only; split_ifs <;> rfl)
  intro r2 t2
  dsimp only [Option.map_some']
  split_ifs <;> rfl


theorem both_long_bind_bufs (d c : Buf4) (e : Ext) (s1 s : State)
    (f1 f : Bool × State → Option State) (hs : s1 = withBufs d c s)
    (h : ∀ r t1, f1 (r, { withBufs d c s with tick := t1 })
      = (f (r, { s with tick := t1 })).map (withBufs d c)) :
    (both_long e s1).bind f1 = ((both_long e s).bind f).map (withBufs d c) := by
  subst hs
  unfold both_long key
  have ht : (withBufs d c s).tick = s.tick := rfl
  rw [ht]
  cases hg : getkeypress e.pins S1 s.tick with
  | none => simp
  | some x =>
    simp only [Option.map_some', Option.some_bind]
    by_cases hl : x.1 = PRESS_LONG
    · simp only [hl, if_true]
      cases hg2 : getkeypress e.pins S2 x.2 with
      | none => simp
      | some y =>
        simp only [Option.map_some', Option.some_bind]
        exact h _ y.2
    · simp only [hl, if_false, Option.some_bind]
      exact h _ x.2

theorem case_M_DATE_DISP_bufs (d c : Buf4) (b : Build) (e : Ext) (s : State) :
    case_M_DATE_DISP b e (withBufs d c s) = (case_M_DATE_DISP b e s).map (withBufs d c) := by
  unfold case_M_DATE_DISP
  apply bind_bufs
  · by_cases hb : b.CFG_SET_DATE_TIME = 1
    · rw [if_pos hb, if_pos hb]
      apply key_bind_bufs d c _ _ _ _ _ _ rfl
      intro r t1
      dsimp only [Option.map_some', State.call]
      split_ifs <;> rfl
    · rw [if_neg hb, if_neg hb]; rfl
  · intro s0
    apply key_bind_bufs d c _ _ _ _ _ _ rfl
    intro r2 t2
    dsimp only [Option.map_some']
    split_ifs <;> rfl

theorem case_M_WEEKDAY_DISP_bufs (d c : Buf4) (b : Build) (e : Ext) (s : State) :
    case_M_WEEKDAY_DISP b e (withBufs d c s) = (case_M_WEEKDAY_DISP b e s).map (withBufs d c) := by
  unfold case_M_WEEKDAY_DISP
  apply bind_bufs
  · by_cases hb : b.CFG_SET_DATE_TIME = 1
    · rw [if_pos hb, if_pos hb]
      apply key_bind_bufs d c _ _ _ _ _ _ rfl
      intro r t1
      dsimp only [Option.map_some', State.call]
      split_ifs <;> rfl
    · rw [if_neg hb, if_neg hb]; rfl
  · intro s0
    apply key_bind_bufs d c _ _ _ _ _ _ rfl
    intro r2 t2
    dsimp only [Option.map_some']
    split_ifs <;> rfl

theorem case_M_NORMAL_bufs (d c : Buf4) (b : Build) (e : Ext) (s : State) :
    case_M_NORMAL b e (withBufs d c s) = (case_M_NORMAL b e s).map (withBufs d c) := by
  unfold case_M_NORMAL
  apply bind_bufs
  · by_cases hb : b.CFG_SET_DATE_TIME = 1
    · rw [if_pos hb, if_pos hb]
      apply both_long_bind_bufs d c _ _ _ _ _ (by dsimp only [withBufs]; split_ifs <;> rfl)
      intro r t1
      apply key_bind_bufs d c _ _ _ _ _ _
        (by dsimp only [withBufs, State.call]; split_ifs <;> rfl)
      intro r2 t2
      dsimp only [Option.map_some']
      split_ifs <;> rfl
    · rw [if_neg hb, if_neg hb]
      dsimp only [Option.map_some', withBufs]
      split_ifs <;> rfl
  · intro s0
    apply key_bind_bufs d c _ _ _ _ _ _ rfl
    intro r2 t2
    dsimp only [Option.map_some']
    split_ifs <;> rfl

theorem case_M_SET_HOUR_bufs (d c : Buf4) (e : Ext) (s : State) :
    case_M_SET_HOUR e (withBufs d c s) = (case_M_SET_HOUR e s).map (withBufs d c) := by
  unfold case_M_SET_HOUR
  dsimp only [withBufs]
  split_ifs
  · apply key_bind_bufs d c _ _ _ _ _ _ (by rfl)
    intro r t1
    apply key_bind_bufs d c _ _ _ _ _ _
      (by dsimp only [withBufs, State.call]; split_ifs <;> rfl)
    intro r2 t2
    dsimp only [Option.map_some']
    split_ifs <;> rfl
  · rfl

theorem case_M_SET_MINUTE_bufs (d c : Buf4) (e : Ext) (s : State) :
    case_M_SET_MINUTE e (withBufs d c s) = (case_M_SET_MINUTE e s).map (withBufs d c) := by
  unfold case_M_SET_MINUTE
  dsimp only [withBufs]
  split_ifs
  · apply key_bind_bufs d c _ _ _ _ _ _ (by rfl)
    intro r t1
    apply key_bind_bufs d c _ _ _ _ _ _
      (by dsimp only [withBufs, State.call]; split_ifs <;> rfl)
    intro r2 t2
    dsimp only [Option.map_some']
    split_ifs <;> rfl
  · rfl

theorem case_M_SET_MONTH_bufs (d c : Buf4) (e : Ext) (s : State) :
    case_M_SET_MONTH e (withBufs d c s) = (case_M_SET_MONTH e s).map (withBufs d c) := by
  unfold case_M_SET_MONTH
  dsimp only [withBufs]
  split_ifs
  · apply key_bind_bufs d c _ _ _ _ _ _ (by rfl)
    intro r t1
    apply key_bind_bufs d c _ _ _ _ _ _
      (by dsimp only [withBufs, State.call]; split_ifs <;> rfl)
    intro r2 t2
    dsimp only [Option.map_some']
    split_ifs <;> rfl
  · rfl

theorem case_M_SET_DAY_bufs (d c : Buf4) (e : Ext) (s : State) :
    case_M_SET_DAY e (withBufs d c s) = (case_M_SET_DAY e s).map (withBufs d c) := by
  unfold case_M_SET_DAY
  dsimp only [withBufs]
  split_ifs
  · apply key_bind_bufs d c _ _ _ _ _ _ (by rfl)
    intro r t1
    apply key_bind_bufs d c _ _ _ _ _ _
      (by dsimp only [withBufs, State.call]; split_ifs <;> rfl)
    intro r2 t2
    dsimp only [Option.map_some']
    split_ifs <;> rfl
  · rfl

theorem decision_bufs (d c : Buf4) (b : Build) (e : Ext) (s : State) :
    decision b e (withBufs d c s) = (decision b e s).map (withBufs d c) := by
  have hmd : (withBufs d c s).dmode = s.dmode := rfl
  unfold decision
  rw [hmd]
  by_cases hb : b.CFG_SET_DATE_TIME = 1
  · rw [if_pos hb, if_pos hb]
    cases s.dmode <;> dsimp only
    · exact case_M_NORMAL_bufs d c b e s
    · exact case_M_SET_HOUR_bufs d c e s
    · exact case_M_SET_MINUTE_bufs d c e s
    · exact case_M_SET_MONTH_bufs d c e s
    · exact case_M_SET_DAY_bufs d c e s
    · exact case_M_TEMP_DISP_bufs d c e s
    · exact case_M_DATE_DISP_bufs d c b e s
    · exact case_M_WEEKDAY_DISP_bufs d c b e s
  · rw [if_neg hb, if_neg hb]
    cases s.dmode <;> dsimp only
    · exact case_M_NORMAL_bufs d c b e s
    · exact case_M_NORMAL_bufs d c b e s
    · exact case_M_NORMAL_bufs d c b e s
    · exact case_M_NORMAL_bufs d c b e s
    · exact case_M_NORMAL_bufs d c b e s
    · exact case_M_TEMP_DISP_bufs d c e s
    · exact case_M_DATE_DISP_bufs d c b e s
    · exact case_M_WEEKDAY_DISP_bufs d c b e s

theorem loop_head_bufs (d c : Buf4) (b : Build) (e : Ext) (s : State) :
    loop_head b e (withBufs d c s) = (loop_head b e s).map (withBufs d c) := by
  unfold loop_head wait
  have ht : (withBufs d c s).tick = s.tick := rfl
  dsimp only [withBufs]
  cases _delay_ms e.pins 60 s.tick with
  | none => rfl
  | some t =>
    simp only [Option.map_some', Option.some_bind, sense, State.call]
    split_ifs <;> rfl

/-! ## The committed buffer -/

theorem sense_frame (b : Build) (e : Ext) (s : State) :
    (sense b e s).tick = s.tick ∧ (sense b e s).dmode = s.dmode := by
  unfold sense
  dsimp only [State.call]
  split_ifs <;> exact ⟨rfl, rfl⟩

theorem loop_head_returns (b : Build) (e : Ext) (s : State)
    (hwf : s.tick.timerTicksNow < 256) (hm : modeOK b s.dmode) :
    Returns (fun r => r.tick.timerTicksNow < 256 ∧ modeOK b r.dmode) (loop_head b e s) := by
  have hd := _delay_ms_eq e.pins 60 s.tick (by norm_num) hwf
  have hw : wait e 60 { s with RELAY := false }
      = some { s with RELAY := false, tick := ticks e.pins (60 / 10) s.tick } := by
    simp only [wait, hd, Option.map_some']
  unfold loop_head
  rw [hw, Option.some_bind]
  refine ⟨_, rfl, ?_, ?_⟩
  · show (sense b e _).tick.timerTicksNow < 256
    rw [(sense_frame b e _).1]
    exact ticks_timerTicksNow_lt e.pins _ s.tick hwf
  · show modeOK b (sense b e _).dmode
    rw [(sense_frame b e _).2]
    exact hm

theorem loop_tail_returns (e : Ext) (s : State) (hwf : s.tick.timerTicksNow < 256) :
    Returns (fun r => r.dbufCur = s.dbufCur ∧ r.dmode = s.dmode) (loop_tail e s) := by
  have hd := _delay_ms_eq e.pins 40 s.tick (by norm_num) hwf
  unfold loop_tail
  simp only [wait, State.call, hd, Option.map_some', Option.some_bind]
  exact ⟨_, rfl, rfl, rfl⟩

theorem commit_dbufCur (x : State) :
    (commit (rotateThirdPos x)).dbufCur
      = { b0 := x.dbuf.b0, b1 := x.dbuf.b1, b2 := rotateThirdPosByte x.dbuf.b2,
          b3 := x.dbuf.b3 } := rfl

/-- C6: for every state of the main loop with an 8-bit tick counter and an
enumerated mode, the iteration returns; with `s1` the state in which the
render step of that iteration runs (after the decision step), the committed
buffer `dbufCur` after the iteration holds in slots 0, 1 and 3 what the render
step wrote into `dbuf`, and in slot 2 the rendered byte with its low 6 bits
rotated by 3 and its top 2 bits unchanged.  No slot carries an older value:
the render step writes all four slots whatever the buffers held, and the
iteration started with any other contents of `dbuf` and `dbufCur` commits
the same four bytes. -/
theorem commit_equals_render (b : Build) (e : Ext) (s : State)
    (hwf : s.tick.timerTicksNow < 256) (hm : modeOK b s.dmode) :
    ∃ s0 s1 s2,
      loop_head b e s = some s0 ∧ decision b e s0 = some s1 ∧ modeOK b s1.dmode ∧
      loop_body b e s = some s2 ∧
      s2.dbufCur.get 0 = (render b e s1).dbuf.get 0 ∧
      s2.dbufCur.get 1 = (render b e s1).dbuf.get 1 ∧
      s2.dbufCur.get 2 = ((render b e s1).dbuf.get 2).map rot6 ∧
      s2.dbufCur.get 3 = (render b e s1).dbuf.get 3 ∧
      (∀ d c : Buf4, (render b e (withBufs d c s1)).dbuf = (render b e s1).dbuf) ∧
      (∀ d c : Buf4, ∃ s3,
        loop_body b e (withBufs d c s) = some s3 ∧ s3.dbufCur = s2.dbufCur) := by
  obtain ⟨s0, h0, w0, m0⟩ := loop_head_returns b e s hwf hm
  obtain ⟨s1, h1, w1, m1⟩ := decision_returns b e s0 w0 m0
  have hr := render_facts b e s1 s1.dbuf s1.dbufCur m1
  have wt : (commit (rotateThirdPos (render b e s1))).tick.timerTicksNow < 256 := by
    show (render b e s1).tick.timerTicksNow < 256
    rw [hr.2.2]
    exact w1
  obtain ⟨s2, h2, hc, _⟩ := loop_tail_returns e _ wt
  rw [commit_dbufCur] at hc
  refine ⟨s0, s1, s2, h0, h1, m1, ?_, ?_, ?_, ?_, ?_, ?_, ?_⟩
  · simp only [loop_body, h0, h1, Option.some_bind, h2]
  · rw [hc]; rfl
  · rw [hc]; rfl
  · rw [hc]
    show some (rotateThirdPosByte _) = some (rot6 _)
    rw [rotateThirdPosByte_eq_rot6 _ hr.2.1]
  · rw [hc]; rfl
  · intro d c
    exact (render_facts b e s1 d c m1).1
  · intro d c
    have hrd := render_facts b e (withBufs d c s1) s1.dbuf s1.dbufCur m1
    have hrq := (render_facts b e s1 d c m1).1
    have wt2 : (commit (rotateThirdPos (render b e (withBufs d c s1)))).tick.timerTicksNow
        < 256 := by
      show (render b e (withBufs d c s1)).tick.timerTicksNow < 256
      rw [hrd.2.2]
      exact w1
    obtain ⟨s3, h3, hc3, _⟩ := loop_tail_returns e _ wt2
    rw [commit_dbufCur] at hc3
    refine ⟨s3, ?_, ?_⟩
    · simp only [loop_body, loop_head_bufs, h0, Option.map_some', Option.some_bind,
        decision_bufs, h1, h3]
    · rw [hc3, hc]
      show _ = _
      have hq : (render b e (withBufs d c s1)).dbuf = (render b e s1).dbuf := hrq
      rw [hq]

/-- C6 at a concrete state: normal mode, editing build, S2 pressed. -/
theorem commit_equals_render_witness :
    ∃ s0 s1 s2,
      loop_head buildEdit (extOf pinsS2) (stateOf M_NORMAL false (tickS2 5)) = some s0 ∧
      decision buildEdit (extOf pinsS2) s0 = some s1 ∧ modeOK buildEdit s1.dmode ∧
      loop_body buildEdit (extOf pinsS2) (stateOf M_NORMAL false (tickS2 5)) = some s2 ∧
      s2.dbufCur.get 0 = (render buildEdit (extOf pinsS2) s1).dbuf.get 0 ∧
      s2.dbufCur.get 1 = (render buildEdit (extOf pinsS2) s1).dbuf.get 1 ∧
      s2.dbufCur.get 2 = ((render buildEdit (extOf pinsS2) s1).dbuf.get 2).map rot6 ∧
      s2.dbufCur.get 3 = (render buildEdit (extOf pinsS2) s1).dbuf.get 3 ∧
      (∀ d c : Buf4,
        (render buildEdit (extOf pinsS2) (withBufs d c s1)).dbuf
          = (render buildEdit (extOf pinsS2) s1).dbuf) ∧
      (∀ d c : Buf4, ∃ s3,
        loop_body buildEdit (extOf pinsS2) (withBufs d c (stateOf M_NORMAL false (tickS2 5)))
          = some s3 ∧ s3.dbufCur = s2.dbufCur) :=
  commit_equals_render buildEdit (extOf pinsS2) (stateOf M_NORMAL false (tickS2 5))
    (by decide) (Or.inl rfl)

/-! ## Bit-level facts, checked on all bytes -/

set_option maxRecDepth 1000000 in
theorem rotateThirdPosByte_bits : ∀ x, x < 256 →
    rotateThirdPosByte (rotateThirdPosByte x) = x ∧
    (rotateThirdPosByte x).testBit 6 = x.testBit 6 ∧
    (rotateThirdPosByte x).testBit 7 = x.testBit 7 ∧
    (rotateThirdPosByte x).testBit 0 = x.testBit 3 ∧
    (rotateThirdPosByte x).testBit 1 = x.testBit 4 ∧
    (rotateThirdPosByte x).testBit 2 = x.testBit 5 ∧
    (rotateThirdPosByte x).testBit 3 = x.testBit 0 ∧
    (rotateThirdPosByte x).testBit 4 = x.testBit 1 ∧
    (rotateThirdPosByte x).testBit 5 = x.testBit 2 ∧
    popcount8 (rotateThirdPosByte x) = popcount8 x ∧
    rotateThirdPosByte x < 256 := by
  decide

set_option maxRecDepth 1000000 in
theorem P3_lit_bits : ∀ P3, P3 < 256 → ∀ digit, digit < 4 →
    (∀ j, j < 4 → (digit_active (P3_lit P3 digit) j = true ↔ j = digit)) ∧
    (P3_lit P3 digit).testBit 0 = P3.testBit 0 ∧
    (P3_lit P3 digit).testBit 1 = P3.testBit 1 ∧
    (P3_lit P3 digit).testBit 6 = P3.testBit 6 ∧
    (P3_lit P3 digit).testBit 7 = P3.testBit 7 := by
  decide

set_option maxRecDepth 1000000 in
theorem P3_dark_bits : ∀ P3, P3 < 256 →
    (∀ j, j < 4 → digit_active (P3_dark P3) j = false) ∧
    (P3_dark P3).testBit 0 = P3.testBit 0 ∧
    (P3_dark P3).testBit 1 = P3.testBit 1 ∧
    (P3_dark P3).testBit 6 = P3.testBit 6 ∧
    (P3_dark P3).testBit 7 = P3.testBit 7 := by
  decide

/-! ## Display refresh scheduler -/

theorem Buf4_get_lt (b : Buf4) (k : Nat) (hk : k < 4) : ∃ v, b.get k = some v := by
  interval_cases k <;> exact ⟨_, rfl⟩

/-- The result of `timer0_isr` on a tick that lights a digit. -/
theorem timer0_isr_lit (s : State) (hl : s.lightval ≠ 0)
    (hlit : s.displaycounter % s.lightval < 4) :
    ∃ v, s.dbufCur.get (s.displaycounter % 4) = some v ∧
      timer0_isr s = some { s with
        P2 := v
        P3 := P3_lit s.P3 (s.displaycounter % 4)
        displaycounter := (s.displaycounter + 1) % 256 } := by
  obtain ⟨v, hv⟩ := Buf4_get_lt s.dbufCur (s.displaycounter % 4) (Nat.mod_lt _ (by norm_num))
  refine ⟨v, hv, ?_⟩
  simp only [timer0_isr, hl, if_false, hlit, if_true, hv, P3_lit]

/-- The result of `timer0_isr` on a tick that lights no digit. -/
theorem timer0_isr_dark (s : State) (hl : s.lightval ≠ 0)
    (hlit : ¬ s.displaycounter % s.lightval < 4) :
    timer0_isr s = some { s with
      P3 := P3_dark s.P3
      displaycounter := (s.displaycounter + 1) % 256 } := by
  simp only [timer0_isr, hl, if_false, hlit, P3_dark]

/-- C17: after an execution of `timer0_isr` entered with a byte in `P3` and
`lightval ≥ 1`: the call returns; at most one of the four digit-enable lines
(P3 bits 2..5, active low) is active; when `displaycounter mod lightval < 4`
the active line is exactly that of digit `displaycounter mod 4` and `P2` holds
`dbufCur` of that digit, otherwise no line is active; P3 bits 0, 1, 6 and 7
keep their values; and `displaycounter` is advanced by 1 modulo 256. -/
theorem timer0_isr_multiplex (s : State) (hl : 1 ≤ s.lightval) (hP : s.P3 < 256) :
    ∃ r, timer0_isr s = some r ∧
      (∀ j k, j < 4 → k < 4 →
        digit_active r.P3 j = true → digit_active r.P3 k = true → j = k) ∧
      (s.displaycounter % s.lightval < 4 →
        (∀ j, j < 4 → (digit_active r.P3 j = true ↔ j = s.displaycounter % 4)) ∧
        some r.P2 = s.dbufCur.get (s.displaycounter % 4)) ∧
      (¬ s.displaycounter % s.lightval < 4 →
        ∀ j, j < 4 → digit_active r.P3 j = false) ∧
      r.P3.testBit 0 = s.P3.testBit 0 ∧
      r.P3.testBit 1 = s.P3.testBit 1 ∧
      r.P3.testBit 6 = s.P3.testBit 6 ∧
      r.P3.testBit 7 = s.P3.testBit 7 ∧
      r.displaycounter = (s.displaycounter + 1) % 256 := by
  have hl0 : s.lightval ≠ 0 := by omega
  by_cases hlit : s.displaycounter % s.lightval < 4
  · obtain ⟨v, hv, hr⟩ := timer0_isr_lit s hl0 hlit
    have hb := P3_lit_bits s.P3 hP (s.displaycounter % 4) (Nat.mod_lt _ (by norm_num))
    refine ⟨_, hr, ?_, ?_, ?_, hb.2.1, hb.2.2.1, hb.2.2.2.1, hb.2.2.2.2, rfl⟩
    · intro j k hj hk aj ak
      have e1 := (hb.1 j hj).1 aj
      have e2 := (hb.1 k hk).1 ak
      omega
    · intro _
      exact ⟨hb.1, hv.symm⟩
    · intro h
      exact absurd hlit h
  · have hr := timer0_isr_dark s hl0 hlit
    have hb := P3_dark_bits s.P3 hP
    refine ⟨_, hr, ?_, ?_, ?_, hb.2.1, hb.2.2.1, hb.2.2.2.1, hb.2.2.2.2, rfl⟩
    · intro j k hj _ aj _
      have := hb.1 j hj
      rw [this] at aj
      exact absurd aj (by decide)
    · intro h
      exact absurd h hlit
    · intro _
      exact hb.1

/-- C20: on every byte the third-digit correction `rotateThirdPos` is an
involution; it leaves bits 6 and 7 unchanged, swaps bit `i` with bit `i + 3`
for `i` in 0..2, and preserves the number of set bits.  Applied to `dbuf[2]`
twice it restores the buffer. -/
theorem rotateThirdPos_involution (x : Nat) (hx : x < 256) :
    rotateThirdPosByte (rotateThirdPosByte x) = x ∧
    (rotateThirdPosByte x).testBit 6 = x.testBit 6 ∧
    (rotateThirdPosByte x).testBit 7 = x.testBit 7 ∧
    (∀ i, i < 3 →
      (rotateThirdPosByte x).testBit i = x.testBit (i + 3) ∧
      (rotateThirdPosByte x).testBit (i + 3) = x.testBit i) ∧
    popcount8 (rotateThirdPosByte x) = popcount8 x ∧
    (∀ s : State, s.dbuf.b2 = x → (rotateThirdPos (rotateThirdPos s)).dbuf = s.dbuf) := by
  have h := rotateThirdPosByte_bits x hx
  refine ⟨h.1, h.2.1, h.2.2.1, ?_, h.2.2.2.2.2.2.2.2.2.1, ?_⟩
  · intro i hi
    interval_cases i
    · exact ⟨h.2.2.2.1, h.2.2.2.2.2.2.1⟩
    · exact ⟨h.2.2.2.2.1, h.2.2.2.2.2.2.2.1⟩
    · exact ⟨h.2.2.2.2.2.1, h.2.2.2.2.2.2.2.2.1⟩
  · intro s hs
    show ({ s.dbuf with b2 := rotateThirdPosByte (rotateThirdPosByte s.dbuf.b2) } : Buf4) = s.dbuf
    rw [hs, h.1, ← hs]

/-- C20 at the byte 0x95. -/
theorem rotateThirdPos_involution_witness :
    rotateThirdPosByte (rotateThirdPosByte 0x95) = 0x95 ∧
    (rotateThirdPosByte 0x95).testBit 6 = (0x95).testBit 6 ∧
    (rotateThirdPosByte 0x95).testBit 7 = (0x95).testBit 7 ∧
    (∀ i, i < 3 →
      (rotateThirdPosByte 0x95).testBit i = (0x95).testBit (i + 3) ∧
      (rotateThirdPosByte 0x95).testBit (i + 3) = (0x95).testBit i) ∧
    popcount8 (rotateThirdPosByte 0x95) = popcount8 0x95 ∧
    (∀ s : State, s.dbuf.b2 = 0x95 →
      (rotateThirdPos (rotateThirdPos s)).dbuf = s.dbuf) :=
  rotateThirdPos_involution 0x95 (by decide)

/-- C17 at a concrete state: frame counter 0, divisor 4, `P3 = 0`. -/
theorem timer0_isr_multiplex_witness :
    ∃ r, timer0_isr (stateOf M_NORMAL false (tickHeld 0 0)) = some r ∧
      (∀ j k, j < 4 → k < 4 →
        digit_active r.P3 j = true → digit_active r.P3 k = true → j = k) ∧
      ((stateOf M_NORMAL false (tickHeld 0 0)).displaycounter
          % (stateOf M_NORMAL false (tickHeld 0 0)).lightval < 4 →
        (∀ j, j < 4 → (digit_active r.P3 j = true ↔
          j = (stateOf M_NORMAL false (tickHeld 0 0)).displaycounter % 4)) ∧
        some r.P2 = (stateOf M_NORMAL false (tickHeld 0 0)).dbufCur.get
          ((stateOf M_NORMAL false (tickHeld 0 0)).displaycounter % 4)) ∧
      (¬ (stateOf M_NORMAL false (tickHeld 0 0)).displaycounter
          % (stateOf M_NORMAL false (tickHeld 0 0)).lightval < 4 →
        ∀ j, j < 4 → digit_active r.P3 j = false) ∧
      r.P3.testBit 0 = (stateOf M_NORMAL false (tickHeld 0 0)).P3.testBit 0 ∧
      r.P3.testBit 1 = (stateOf M_NORMAL false (tickHeld 0 0)).P3.testBit 1 ∧
      r.P3.testBit 6 = (stateOf M_NORMAL false (tickHeld 0 0)).P3.testBit 6 ∧
      r.P3.testBit 7 = (stateOf M_NORMAL false (tickHeld 0 0)).P3.testBit 7 ∧
      r.displaycounter = ((stateOf M_NORMAL false (tickHeld 0 0)).displaycounter + 1) % 256 :=
  timer0_isr_multiplex (stateOf M_NORMAL false (tickHeld 0 0)) (by decide) (by decide)

/-! ## Dimming -/

theorem is_lit_timer0_isr (s : State) (hl : 1 ≤ s.lightval) (hP : s.P3 < 256) :
    ∃ r, timer0_isr s = some r ∧
      (is_lit r.P3 = true ↔ s.displaycounter % s.lightval < 4) ∧
      r.P3 < 256 ∧ r.lightval = s.lightval ∧
      r.displaycounter = (s.displaycounter + 1) % 256 := by
  have hl0 : s.lightval ≠ 0 := by omega
  by_cases hlit : s.displaycounter % s.lightval < 4
  · obtain ⟨v, _, hr⟩ := timer0_isr_lit s hl0 hlit
    have hd : s.displaycounter % 4 < 4 := Nat.mod_lt _ (by norm_num)
    have hb := (P3_lit_bits s.P3 hP (s.displaycounter % 4) hd).1
    refine ⟨_, hr, ?_, Nat.mod_lt _ (by norm_num), rfl, rfl⟩
    simp only [hlit, iff_true]
    have h0 := hb 0 (by norm_num)
    have h1 := hb 1 (by norm_num)
    have h2 := hb 2 (by norm_num)
    have h3 := hb 3 (by norm_num)
    have hcase : s.displaycounter % 4 = 0 ∨ s.displaycounter % 4 = 1 ∨
        s.displaycounter % 4 = 2 ∨ s.displaycounter % 4 = 3 := by omega
    show is_lit (P3_lit s.P3 (s.displaycounter % 4)) = true
    unfold is_lit
    rcases hcase with h | h | h | h
    · rw [h0.2 h.symm]; rfl
    · rw [h1.2 h.symm]; simp
    · rw [h2.2 h.symm]; simp
    · rw [h3.2 h.symm]; simp
  · have hr := timer0_isr_dark s hl0 hlit
    have hb := (P3_dark_bits s.P3 hP).1
    refine ⟨_, hr, ?_, Nat.mod_lt _ (by norm_num), rfl, rfl⟩
    simp only [hlit, iff_false]
    show ¬ is_lit (P3_dark s.P3) = true
    unfold is_lit
    rw [hb 0 (by norm_num), hb 1 (by norm_num), hb 2 (by norm_num), hb 3 (by norm_num)]
    decide

theorem refresh_run_eq (n : Nat) : ∀ s : State, 1 ≤ s.lightval → s.P3 < 256 →
    ∃ r, refresh_run n s = some (litCount s.lightval n s.displaycounter, r) ∧
      r.displaycounter % 256 = (s.displaycounter + n) % 256 := by
  induction n with
  | zero =>
    intro s _ _
    exact ⟨s, rfl, rfl⟩
  | succ k ih =>
    intro s hl hP
    obtain ⟨r, hr, hlit, hP2, hl2, hd⟩ := is_lit_timer0_isr s hl hP
    obtain ⟨r2, hr2, hd2⟩ := ih r (by omega) hP2
    refine ⟨r2, ?_, ?_⟩
    · simp only [refresh_run, hr, hr2, Option.map_some', litCount, hl2, hd]
      by_cases h : s.displaycounter % s.lightval < 4
      · simp [h, hlit.2 h]
      · have : ¬ is_lit r.P3 = true := fun hh => h (hlit.1 hh)
        simp [h, this]
    · rw [hd2, hd]
      omega

set_option maxRecDepth 1000000 in
theorem litCount_100 : ∀ c, c < 256 → litCount 100 256 c = 12 := by
  decide

set_option maxRecDepth 1000000 in
theorem litCount_190 : ∀ c, c < 256 → litCount 190 256 c = 8 := by
  decide

/-- C13 (as stated, refuted): with dim divisor 100 a full period of the 8-bit
frame counter (256 refresh ticks from counter value 0) has 12 lit ticks, and
with divisor 190 it has 8; the fractions 12/256 and 8/256 are not 4/100 and
4/190. -/
theorem duty_cycle_counterexample :
    (refresh_run 256 (stateDim 100 0)).map Prod.fst = some 12 ∧ 12 * 100 ≠ 4 * 256 ∧
    (refresh_run 256 (stateDim 190 0)).map Prod.fst = some 8 ∧ 8 * 190 ≠ 4 * 256 := by
  obtain ⟨r1, h1, _⟩ := refresh_run_eq 256 (stateDim 100 0) (by decide) (by decide)
  obtain ⟨r2, h2, _⟩ := refresh_run_eq 256 (stateDim 190 0) (by decide) (by decide)
  have e1 : litCount (stateDim 100 0).lightval 256 (stateDim 100 0).displaycounter = 12 :=
    litCount_100 0 (by decide)
  have e2 : litCount (stateDim 190 0).lightval 256 (stateDim 190 0).displaycounter = 8 :=
    litCount_190 0 (by decide)
  rw [e1] at h1
  rw [e2] at h2
  refine ⟨by rw [h1]; rfl, by decide, by rw [h2]; rfl, by decide⟩

/-- C13 (amended): on each refresh tick entered with dim divisor `D ≥ 1` a
digit is lit iff `displaycounter mod D < 4`; the frame counter is 8 bits wide,
and over one full period of it (256 refresh ticks, from any counter value) the
lit ticks number 12 for `D = 100` and 8 for `D = 190`, after which the counter
is back at its value. -/
theorem dimming_duty (s : State) (hl : 1 ≤ s.lightval) (hP : s.P3 < 256)
    (hc : s.displaycounter < 256) :
    (∃ r, timer0_isr s = some r ∧
      (is_lit r.P3 = true ↔ s.displaycounter % s.lightval < 4)) ∧
    (s.lightval = 100 →
      ∃ r, refresh_run 256 s = some (12, r) ∧ r.displaycounter % 256 = s.displaycounter) ∧
    (s.lightval = 190 →
      ∃ r, refresh_run 256 s = some (8, r) ∧ r.displaycounter % 256 = s.displaycounter) := by
  obtain ⟨r, hr, hlit, _⟩ := is_lit_timer0_isr s hl hP
  obtain ⟨r2, hr2, hd2⟩ := refresh_run_eq 256 s hl hP
  have hback : r2.displaycounter % 256 = s.displaycounter := by omega
  refine ⟨⟨r, hr, hlit⟩, ?_, ?_⟩
  · intro hD
    rw [hD, litCount_100 _ hc] at hr2
    exact ⟨r2, hr2, hback⟩
  · intro hD
    rw [hD, litCount_190 _ hc] at hr2
    exact ⟨r2, hr2, hback⟩

/-- C13 (amended) at divisor 100, frame counter 7. -/
theorem dimming_duty_witness :
    (∃ r, timer0_isr (stateDim 100 7) = some r ∧
      (is_lit r.P3 = true ↔
        (stateDim 100 7).displaycounter % (stateDim 100 7).lightval < 4)) ∧
    ((stateDim 100 7).lightval = 100 →
      ∃ r, refresh_run 256 (stateDim 100 7) = some (12, r) ∧
        r.displaycounter % 256 = (stateDim 100 7).displaycounter) ∧
    ((stateDim 100 7).lightval = 190 →
      ∃ r, refresh_run 256 (stateDim 100 7) = some (8, r) ∧
        r.displaycounter % 256 = (stateDim 100 7).displaycounter) :=
  dimming_duty (stateDim 100 7) (by decide) (by decide) (by decide)

/-! ## Counter range and sustained holds -/

/-- C11 (as stated, refuted): with counter 250 on a settled-closed channel,
one tick stores 251, which exceeds 250. -/
theorem switchcount_exceeds_250_counterexample :
    (timer1_isr pinsClosed (tickHeld 250 0)).switchcount0 = 251 ∧
    ¬ (timer1_isr pinsClosed (tickHeld 250 0)).switchcount0 ≤ 250 := by
  decide

/-- C11 (amended): after every tick of `timer1_isr`, from any prior state, no
channel's stored counter exceeds 251; a counter that exceeds 250 when the tick
starts is rebased to 100 within that tick, before the increment, so it is at
most 101 afterwards; the increment never wraps the 8-bit counter (the stored
value is the rebased value plus one, or 0). -/
theorem switchcount_le_251 (p : Pins) (t : TickState) :
    (timer1_isr p t).switchcount0 ≤ (if t.switchcount0 > 250 then 101 else 251) ∧
    (timer1_isr p t).switchcount1 ≤ (if t.switchcount1 > 250 then 101 else 251) ∧
    (timer1_isr p t).switchcount0 ≤ 251 ∧
    (timer1_isr p t).switchcount1 ≤ 251 ∧
    ((timer1_isr p t).switchcount0 = (if t.switchcount0 > 250 then 100 else t.switchcount0) + 1 ∨
      (timer1_isr p t).switchcount0 = 0) ∧
    ((timer1_isr p t).switchcount1 = (if t.switchcount1 > 250 then 100 else t.switchcount1) + 1 ∨
      (timer1_isr p t).switchcount1 = 0) := by
  have h0 : (timer1_isr p t).switchcount0 =
      if t.debounce0 &&& 0x0F = 0x00 then
        ((if t.switchcount0 > 250 then 100 else t.switchcount0) + 1) % 256 else 0 := rfl
  have h1 : (timer1_isr p t).switchcount1 =
      if t.debounce1 &&& 0x0F = 0x00 then
        ((if t.switchcount1 > 250 then 100 else t.switchcount1) + 1) % 256 else 0 := rfl
  rw [h0, h1]
  refine ⟨?_, ?_, ?_, ?_, ?_, ?_⟩ <;> split_ifs <;> omega

/-- C12 (as stated, refuted): on a channel held closed with counter 251 the
classifier yields `PRESS_LONG`; one tick later in the same hold the counter is
101 and the classifier yields `PRESS_SHORT`. -/
theorem hold_becomes_short_counterexample :
    classify pinsClosed 0 (tickHeld 251 0) = some PRESS_LONG ∧
    (ticks pinsClosed 1 (tickHeld 251 0)).switchcount0 = 101 ∧
    classify pinsClosed 0 (ticks pinsClosed 1 (tickHeld 251 0)) = some PRESS_SHORT := by
  decide

theorem hold_invariant (p : Pins) (t : TickState) (k : Nat)
    (hh : hist t k % 16 = 0) (hs : ∀ i, sample p k (t.now + i) = false)
    (hc : 150 < cnt t k) (n : Nat) :
    hist (ticks p n t) k % 16 = 0 ∧ 101 ≤ cnt (ticks p n t) k := by
  induction n with
  | zero => exact ⟨hh, by show 101 ≤ cnt t k; omega⟩
  | succ m ih =>
    have e := hist_ticks_succ p t k m
    have c := cnt_ticks_succ p t k m
    rw [hs m] at e
    simp only [bitval, Bool.false_eq_true, if_false] at e
    rw [if_pos ih.1] at c
    refine ⟨by omega, ?_⟩
    rw [c]
    split_ifs <;> omega

/-- C12 (amended): on a channel whose last four samples were closed and whose
input is sampled closed on every following tick, once the counter is above
150 (classifies `PRESS_LONG`), at every later tick of the hold the counter
follows `c ↦ c + 1` up to 251 and `251 ↦ 101`, so it is at least 101; the
classifier returns and never yields `PRESS_NONE`; it yields `PRESS_LONG`
exactly while the counter is above 150 and `PRESS_SHORT` otherwise (the 50
ticks after each rebase). -/
theorem hold_never_none (p : Pins) (t : TickState) (k : Nat)
    (hk : k < 2) (hwf : t.timerTicksNow < 256)
    (hh : hist t k % 16 = 0) (hs : ∀ i, sample p k (t.now + i) = false)
    (hc : 150 < cnt t k) (n : Nat) :
    cnt (ticks p (n + 1) t) k
      = (if cnt (ticks p n t) k > 250 then 101 else cnt (ticks p n t) k + 1) ∧
    101 ≤ cnt (ticks p n t) k ∧
    ∃ r, classify p k (ticks p n t) = some r ∧ r ≠ PRESS_NONE ∧
      (r = PRESS_LONG ↔ 150 < cnt (ticks p n t) k) ∧
      (r = PRESS_SHORT ↔ cnt (ticks p n t) k ≤ 150) := by
  have inv := hold_invariant p t k hh hs hc n
  have c := cnt_ticks_succ p t k n
  rw [if_pos inv.1] at c
  refine ⟨?_, inv.2, ?_⟩
  · rw [c]; split_ifs <;> rfl
  · have hw := ticks_timerTicksNow_lt p n t hwf
    have hsc := switchcount_eq_cnt (ticks p n t) k hk
    by_cases hl : 150 < cnt (ticks p n t) k
    · refine ⟨PRESS_LONG, ?_, by decide, by simp [hl], ?_⟩
      · simp [classify, getkeypress, hsc, hl, _delay_ms_eq p 30 _ (by norm_num) hw]
      · simp [PRESS_LONG, PRESS_SHORT]; omega
    · have hne : cnt (ticks p n t) k ≠ 0 := by omega
      refine ⟨PRESS_SHORT, ?_, by decide, ?_, ?_⟩
      · simp [classify, getkeypress, hsc, hl, hne, _delay_ms_eq p 60 _ (by norm_num) hw]
      · simp [PRESS_LONG, PRESS_SHORT]; omega
      · simp; omega

/-- C12 (amended) for channel 0 held closed with counter 200. -/
theorem hold_never_none_witness :
    cnt (ticks pinsClosed (60 + 1) (tickHeld 200 0)) 0
      = (if cnt (ticks pinsClosed 60 (tickHeld 200 0)) 0 > 250 then 101
          else cnt (ticks pinsClosed 60 (tickHeld 200 0)) 0 + 1) ∧
    101 ≤ cnt (ticks pinsClosed 60 (tickHeld 200 0)) 0 ∧
    ∃ r, classify pinsClosed 0 (ticks pinsClosed 60 (tickHeld 200 0)) = some r ∧
      r ≠ PRESS_NONE ∧
      (r = PRESS_LONG ↔ 150 < cnt (ticks pinsClosed 60 (tickHeld 200 0)) 0) ∧
      (r = PRESS_SHORT ↔ cnt (ticks pinsClosed 60 (tickHeld 200 0)) 0 ≤ 150) :=
  hold_never_none pinsClosed (tickHeld 200 0) 0 (by decide) (by decide) (by decide)
    (fun _ => rfl) (by decide) 60

/-! ## Start-up and temperature rendering at concrete inputs -/

/-- C14 (the code at the failing input): when `main` enters its loop the
timers run and `lightval` is still 0; it stays 0 during the first
`_delay_ms(60)`, so a refresh tick in that window computes
`displaycounter % lightval` with a zero divisor (`none` in the model).  The
clamp to 4 takes effect only afterwards: at the end of the first iteration
`lightval` is at least 4. -/
theorem refresh_before_first_clamp :
    (powerOn { temp_offset := 0 }).lightval = 0 ∧
    timer0_isr (powerOn { temp_offset := 0 }) = none ∧
    (wait (extOf pinsOpen) 60 { powerOn { temp_offset := 0 } with RELAY := false }).map
        (fun s => (s.tick.now, s.lightval, timer0_isr s)) = some (6, 0, none) ∧
    (loop_body buildEdit (extOf pinsOpen) (powerOn { temp_offset := 0 })).map
        (fun s => decide (4 ≤ s.lightval)) = some true := by
  decide

/-- C15 (the code at the failing input): Celsius build, thermistor reading
1023, offset 0.  The calibrated temperature is -26; stored in the `uint16_t`
variable `temp` it is 65510, the test `temp > 0` holds, and slot 3 of `dbuf`
receives the pattern of `LED_BLANK`, not that of `LED_DASH`.  Slot 2 holds the
unit glyph with bit 7 cleared (decimal point on). -/
theorem negative_temp_shows_blank :
    gettemp 'C' 1023 + 0 = -26 ∧
    (sense buildEdit (extAdc pinsOpen 0 1023)
        (stateOf M_TEMP_DISP false (tickHeld 0 0))).temp = 65510 ∧
    (render buildEdit (extAdc pinsOpen 0 1023)
        (sense buildEdit (extAdc pinsOpen 0 1023)
          (stateOf M_TEMP_DISP false (tickHeld 0 0)))).dbuf.get 3
      = some (((0xFFFF ^^^ DP_OFF) &&&
          (extAdc pinsOpen 0 1023).ledtable (extAdc pinsOpen 0 1023).LED_BLANK) % 256) ∧
    ((0xFFFF ^^^ DP_OFF) &&&
        (extAdc pinsOpen 0 1023).ledtable (extAdc pinsOpen 0 1023).LED_BLANK) % 256
      ≠ ((0xFFFF ^^^ DP_OFF) &&&
        (extAdc pinsOpen 0 1023).ledtable (extAdc pinsOpen 0 1023).LED_DASH) % 256 ∧
    (render buildEdit (extAdc pinsOpen 0 1023)
        (sense buildEdit (extAdc pinsOpen 0 1023)
          (stateOf M_TEMP_DISP false (tickHeld 0 0)))).dbuf.get 2
      = some (((0xFFFF ^^^ DP_ON) &&&
          (extAdc pinsOpen 0 1023).ledtable (extAdc pinsOpen 0 1023).LED_c) % 256) := by
  decide

/-! ## The normal-mode step as the code performs it -/

/-- A classifier call returns after at most 6 ticks; its result is zero
exactly when the counter it reads is zero. -/
theorem getkeypress_ticks (p : Pins) (k : Nat) (t : TickState)
    (hk : k < 2) (ht : t.timerTicksNow < 256) :
    ∃ r n, getkeypress p k t = some (r, ticks p n t) ∧ n ≤ 6 ∧
      (r = 0 ↔ cnt t k = 0) ∧ (ticks p n t).timerTicksNow < 256 := by
  unfold getkeypress
  rw [switchcount_eq_cnt t k hk]
  simp only [_delay_ms_eq p 30 t (by norm_num) ht, _delay_ms_eq p 60 t (by norm_num) ht,
    Option.map_some']
  split_ifs with h1 h2
  · exact ⟨_, 30 / 10, rfl, by norm_num, by simp [PRESS_LONG]; omega,
      ticks_timerTicksNow_lt p _ t ht⟩
  · exact ⟨_, 60 / 10, rfl, by norm_num, by simp [PRESS_SHORT]; omega,
      ticks_timerTicksNow_lt p _ t ht⟩
  · exact ⟨_, 0, rfl, by norm_num, by simp [PRESS_NONE]; omega, ht⟩

/-- C19: the arguments `S1 == PRESS_SHORT` and `S2 == PRESS_SHORT` evaluate
to 0 and 1, the channels S1 and S2 themselves.  With editing built in, in a
decision step entered in `M_NORMAL` during which each counter keeps being zero
or non-zero as at entry, the mode afterwards is `M_TEMP_DISP` if the counter
of channel S2 is non-zero, otherwise `M_SET_HOUR` if the counter of channel S1
is non-zero, otherwise `M_NORMAL`. -/
theorem normal_step_nonzero_test (b : Build) (e : Ext) (s : State)
    (hb : b.CFG_SET_DATE_TIME = 1) (hm : s.dmode = M_NORMAL)
    (hwf : s.tick.timerTicksNow < 256)
    (hfix : ∀ n, n ≤ 18 →
      ((ticks e.pins n s.tick).switchcount0 = 0 ↔ s.tick.switchcount0 = 0) ∧
      ((ticks e.pins n s.tick).switchcount1 = 0 ↔ s.tick.switchcount1 = 0)) :
    cbool (S1 = PRESS_SHORT) = S1 ∧ cbool (S2 = PRESS_SHORT) = S2 ∧
    modeAfter b e s = some
      (if s.tick.switchcount1 ≠ 0 then M_TEMP_DISP
       else if s.tick.switchcount0 ≠ 0 then M_SET_HOUR else M_NORMAL) := by
  refine ⟨by decide, by decide, ?_⟩
  obtain ⟨ra, na, ga, la, _, wa⟩ := getkeypress_ticks e.pins 0 s.tick (by decide) hwf
  by_cases hl : ra = 2
  · obtain ⟨rb, nb, gb, lb, _, wb⟩ := getkeypress_ticks e.pins 1 _ (by decide) wa
    obtain ⟨rc, nc, gc, lc, zc, wc⟩ := getkeypress_ticks e.pins 0 _ (by decide) wb
    obtain ⟨rd, nd, gd, _, zd, _⟩ := getkeypress_ticks e.pins 1 _ (by decide) wc
    rw [← ticks_add] at zc
    rw [← ticks_add, ← ticks_add] at zd
    have fc := (hfix (na + nb) (by omega)).1
    have fd := (hfix (na + (nb + nc)) (by omega)).2
    simp only [cnt, if_true, if_false, Nat.one_ne_zero] at zc zd
    have zc2 : rc = 0 ↔ s.tick.switchcount0 = 0 := zc.trans fc
    have zd2 : rd = 0 ↔ s.tick.switchcount1 = 0 := zd.trans fd
    by_cases hcol : s.count % 10 < 4 <;> by_cases hl2 : rb = 2 <;>
      by_cases h0 : s.tick.switchcount0 = 0 <;> by_cases h1 : s.tick.switchcount1 = 0 <;>
      simp [modeAfter, decision, case_M_NORMAL, both_long, key, cbool, S1, S2, PRESS_SHORT,
        PRESS_LONG, State.call, hb, hm, hcol, hl, hl2, ga, gb, gc, gd, h0, h1, zc2.2, zd2.2,
        mt zc2.1, mt zd2.1]
  · obtain ⟨rc, nc, gc, lc, zc, wc⟩ := getkeypress_ticks e.pins 0 _ (by decide) wa
    obtain ⟨rd, nd, gd, _, zd, _⟩ := getkeypress_ticks e.pins 1 _ (by decide) wc
    rw [← ticks_add] at zd
    have fc := (hfix na (by omega)).1
    have fd := (hfix (na + nc) (by omega)).2
    simp only [cnt, if_true, if_false, Nat.one_ne_zero] at zc zd
    have zc2 : rc = 0 ↔ s.tick.switchcount0 = 0 := zc.trans fc
    have zd2 : rd = 0 ↔ s.tick.switchcount1 = 0 := zd.trans fd
    by_cases hcol : s.count % 10 < 4 <;>
      by_cases h0 : s.tick.switchcount0 = 0 <;> by_cases h1 : s.tick.switchcount1 = 0 <;>
      simp [modeAfter, decision, case_M_NORMAL, both_long, key, cbool, S1, S2, PRESS_SHORT,
        PRESS_LONG, State.call, hb, hm, hcol, hl, ga, gc, gd, h0, h1, zc2.2, zd2.2,
        mt zc2.1, mt zd2.1]

/-- C19 at a concrete state: S2 held closed (counter 5), S1 released. -/
theorem normal_step_nonzero_test_witness :
    cbool (S1 = PRESS_SHORT) = S1 ∧ cbool (S2 = PRESS_SHORT) = S2 ∧
    modeAfter buildEdit (extOf pinsS2) (stateOf M_NORMAL false (tickS2 5)) = some
      (if (stateOf M_NORMAL false (tickS2 5)).tick.switchcount1 ≠ 0 then M_TEMP_DISP
       else if (stateOf M_NORMAL false (tickS2 5)).tick.switchcount0 ≠ 0 then M_SET_HOUR
       else M_NORMAL) :=
  normal_step_nonzero_test buildEdit (extOf pinsS2) (stateOf M_NORMAL false (tickS2 5))
    rfl rfl (by decide) (by decide)

/-! ## Frame of the main task: what an iteration leaves to the schedulers -/

theorem J_ticks (p : Pins) (J : TickState → Prop)
    (hJ : ∀ t, J t → J (timer1_isr p t)) (n : Nat) : ∀ t, J t → J (ticks p n t) := by
  induction n with
  | zero => intro t h; exact h
  | succ k ih => intro t h; exact ih _ (hJ t h)

theorem TickedFrom_step (p : Pins) (t0 t : TickState) (h : TickedFrom p t0 t) :
    TickedFrom p t0 (timer1_isr p t) := by
  obtain ⟨_, n, hn⟩ := h
  refine ⟨?_, n + 1, ?_⟩
  · show (t.timerTicksNow + 1) % 256 < 256
    omega
  · rw [ticks_succ, hn]

theorem key_bind_J (e : Ext) (J : TickState → Prop) (k : Nat) (s : State)
    (f : Nat × State → Option State) (P : State → Prop)
    (hJ : ∀ t, J t → J (timer1_isr e.pins t)) (hJw : ∀ t, J t → t.timerTicksNow < 256)
    (hk : k < 2) (hs : J s.tick)
    (h : ∀ r t1, J t1 → Returns P (f (r, { s with tick := t1 }))) :
    Returns P ((key e k s).bind f) := by
  obtain ⟨r, n, g, _, _, _⟩ := getkeypress_ticks e.pins k s.tick hk (hJw _ hs)
  simp only [key, g, Option.map_some', Option.some_bind]
  exact h r _ (J_ticks e.pins J hJ n _ hs)

theorem both_long_bind_J (e : Ext) (J : TickState → Prop) (s : State)
    (f : Bool × State → Option State) (P : State → Prop)
    (hJ : ∀ t, J t → J (timer1_isr e.pins t)) (hJw : ∀ t, J t → t.timerTicksNow < 256)
    (hs : J s.tick)
    (h : ∀ r t1, J t1 → Returns P (f (r, { s with tick := t1 }))) :
    Returns P ((both_long e s).bind f) := by
  obtain ⟨ra, na, ga, _, _, _⟩ := getkeypress_ticks e.pins S1 s.tick (by decide) (hJw _ hs)
  have ja := J_ticks e.pins J hJ na _ hs
  obtain ⟨rb, nb, gb, _, _, _⟩ := getkeypress_ticks e.pins S2 _ (by decide) (hJw _ ja)
  have jb := J_ticks e.pins J hJ nb _ ja
  by_cases hl : ra = PRESS_LONG
  · simp only [both_long, key, ga, gb, hl, Option.map_some', Option.some_bind, if_true]
    exact h _ _ jb
  · simp only [both_long, key, ga, hl, Option.map_some', Option.some_bind, if_false]
    exact h _ _ ja

theorem case_M_TEMP_DISP_frame (e : Ext) (J : TickState → Prop) (s : State)
    (hJ : ∀ t, J t → J (timer1_isr e.pins t)) (hJw : ∀ t, J t → t.timerTicksNow < 256)
    (hs : J s.tick) :
    Returns (FrameOK J s) (case_M_TEMP_DISP e s) := by
  unfold case_M_TEMP_DISP
  apply key_bind_J e J _ _ _ _ hJ hJw (by decide) hs
  intro r t1 h1
  apply key_bind_J e J _ _ _ _ hJ hJw (by decide) (by dsimp only; split_ifs <;> exact h1)
  intro r2 t2 h2
  refine ⟨_, rfl, ?_, ?_, ?_, ?_⟩
  · dsimp only; split_ifs <;> exact h2
  · dsimp only; split_ifs <;> rfl
  · dsimp only; split_ifs <;> rfl
  · dsimp only; split_ifs <;> rfl

theorem case_M_DATE_DISP_frame (b : Build) (e : Ext) (J : TickState → Prop) (s : State)
    (hJ : ∀ t, J t → J (timer1_isr e.pins t)) (hJw : ∀ t, J t → t.timerTicksNow < 256)
    (hs : J s.tick) :
    Returns (FrameOK J s) (case_M_DATE_DISP b e s) := by
  unfold case_M_DATE_DISP
  apply returns_bind _ _ (FrameOK J s)
  · by_cases hb : b.CFG_SET_DATE_TIME = 1
    · rw [if_pos hb]
      apply key_bind_J e J _ _ _ _ hJ hJw (by decide) hs
      intro r t1 h1
      refine ⟨_, rfl, ?_, ?_, ?_, ?_⟩
      · dsimp only [State.call]; split_ifs <;> exact h1
      · dsimp only [State.call]; split_ifs <;> rfl
      · dsimp only [State.call]; split_ifs <;> rfl
      · dsimp only [State.call]; split_ifs <;> rfl
    · rw [if_neg hb]
      exact ⟨_, rfl, hs, rfl, rfl, rfl⟩
  · intro s0 hs0
    apply key_bind_J e J _ _ _ _ hJ hJw (by decide) hs0.1
    intro r2 t2 h2
    refine ⟨_, rfl, ?_, ?_, ?_, ?_⟩
    · dsimp only; split_ifs <;> exact h2
    · dsimp only; split_ifs <;> exact hs0.2.1
    · dsimp only; split_ifs <;> exact hs0.2.2.1
    · dsimp only; split_ifs <;> exact hs0.2.2.2

theorem case_M_WEEKDAY_DISP_frame (b : Build) (e : Ext) (J : TickState → Prop) (s : State)
    (hJ : ∀ t, J t → J (timer1_isr e.pins t)) (hJw : ∀ t, J t → t.timerTicksNow < 256)
    (hs : J s.tick) :
    Returns (FrameOK J s) (case_M_WEEKDAY_DISP b e s) := by
  unfold case_M_WEEKDAY_DISP
  apply returns_bind _ _ (FrameOK J s)
  · by_cases hb : b.CFG_SET_DATE_TIME = 1
    · rw [if_pos hb]
      apply key_bind_J e J _ _ _ _ hJ hJw (by decide) hs
      intro r t1 h1
      refine ⟨_, rfl, ?_, ?_, ?_, ?_⟩
      · dsimp only [State.call]; split_ifs <;> exact h1
      · dsimp only [State.call]; split_ifs <;> rfl
      · dsimp only [State.call]; split_ifs <;> rfl
      · dsimp only [State.call]; split_ifs <;> rfl
    · rw [if_neg hb]
      exact ⟨_, rfl, hs, rfl, rfl, rfl⟩
  · intro s0 hs0
    apply key_bind_J e J _ _ _ _ hJ hJw (by decide) hs0.1
    intro r2 t2 h2
    refine ⟨_, rfl, ?_, ?_, ?_, ?_⟩
    · dsimp only; split_ifs <;> exact h2
    · dsimp only; split_ifs <;> exact hs0.2.1
    · dsimp only; split_ifs <;> exact hs0.2.2.1
    · dsimp only; split_ifs <;> exact hs0.2.2.2

theorem case_M_NORMAL_frame (b : Build) (e : Ext) (J : TickState → Prop) (s : State)
    (hJ : ∀ t, J t → J (timer1_isr e.pins t)) (hJw : ∀ t, J t → t.timerTicksNow < 256)
    (hs : J s.tick) :
    Returns (FrameOK J s) (case_M_NORMAL b e s) := by
  unfold case_M_NORMAL
  apply returns_bind _ _ (FrameOK J s)
  · by_cases hb : b.CFG_SET_DATE_TIME = 1
    · rw [if_pos hb]
      apply both_long_bind_J e J _ _ _ hJ hJw (by dsimp only; split_ifs <;> exact hs)
      intro r t1 h1
      apply key_bind_J e J _ _ _ _ hJ hJw (by decide)
        (by dsimp only [State.call]; split_ifs <;> exact h1)
      intro r2 t2 h2
      refine ⟨_, rfl, ?_, ?_, ?_, ?_⟩
      · dsimp only [State.call]; split_ifs <;> exact h2
      · dsimp only [State.call]; split_ifs <;> rfl
      · dsimp only [State.call]; split_ifs <;> rfl
      · dsimp only [State.call]; split_ifs <;> rfl
    · rw [if_neg hb]
      refine ⟨_, rfl, ?_, ?_, ?_, ?_⟩
      · dsimp only; split_ifs <;> exact hs
      · dsimp only; split_ifs <;> rfl
      · dsimp only; split_ifs <;> rfl
      · dsimp only; split_ifs <;> rfl
  · intro s0 hs0
    apply key_bind_J e J _ _ _ _ hJ hJw (by decide) hs0.1
    intro r2 t2 h2
    refine ⟨_, rfl, ?_, ?_, ?_, ?_⟩
    · dsimp only; split_ifs <;> exact h2
    · dsimp only; split_ifs <;> exact hs0.2.1
    · dsimp only; split_ifs <;> exact hs0.2.2.1
    · dsimp only; split_ifs <;> exact hs0.2.2.2

theorem case_M_SET_HOUR_frame (e : Ext) (J : TickState → Prop) (s : State)
    (hJ : ∀ t, J t → J (timer1_isr e.pins t)) (hJw : ∀ t, J t → t.timerTicksNow < 256)
    (hs : J s.tick) :
    Returns (FrameOK J s) (case_M_SET_HOUR e s) := by
  unfold case_M_SET_HOUR
  dsimp only
  split_ifs
  · apply key_bind_J e J _ _ _ _ hJ hJw (by decide) (by exact hs)
    intro r t1 h1
    apply key_bind_J e J _ _ _ _ hJ hJw (by decide)
      (by dsimp only [State.call]; split_ifs <;> exact h1)
    intro r2 t2 h2
    refine ⟨_, rfl, ?_, ?_, ?_, ?_⟩
    · dsimp only [State.call]; split_ifs <;> exact h2
    · dsimp only [State.call]; split_ifs <;> rfl
    · dsimp only [State.call]; split_ifs <;> rfl
    · dsimp only [State.call]; split_ifs <;> rfl
  · exact ⟨_, rfl, hs, rfl, rfl, rfl⟩

theorem case_M_SET_MINUTE_frame (e : Ext) (J : TickState → Prop) (s : State)
    (hJ : ∀ t, J t → J (timer1_isr e.pins t)) (hJw : ∀ t, J t → t.timerTicksNow < 256)
    (hs : J s.tick) :
    Returns (FrameOK J s) (case_M_SET_MINUTE e s) := by
  unfold case_M_SET_MINUTE
  dsimp only
  split_ifs
  · apply key_bind_J e J _ _ _ _ hJ hJw (by decide) (by exact hs)
    intro r t1 h1
    apply key_bind_J e J _ _ _ _ hJ hJw (by decide)
      (by dsimp only [State.call]; split_ifs <;> exact h1)
    intro r2 t2 h2
    refine ⟨_, rfl, ?_, ?_, ?_, ?_⟩
    · dsimp only [State.call]; split_ifs <;> exact h2
    · dsimp only [State.call]; split_ifs <;> rfl
    · dsimp only [State.call]; split_ifs <;> rfl
    · dsimp only [State.call]; split_ifs <;> rfl
  · exact ⟨_, rfl, hs, rfl, rfl, rfl⟩

theorem case_M_SET_MONTH_frame (e : Ext) (J : TickState → Prop) (s : State)
    (hJ : ∀ t, J t → J (timer1_isr e.pins t)) (hJw : ∀ t, J t → t.timerTicksNow < 256)
    (hs : J s.tick) :
    Returns (FrameOK J s) (case_M_SET_MONTH e s) := by
  unfold case_M_SET_MONTH
  dsimp only
  split_ifs
  · apply key_bind_J e J _ _ _ _ hJ hJw (by decide) (by exact hs)
    intro r t1 h1
    apply key_bind_J e J _ _ _ _ hJ hJw (by decide)
      (by dsimp only [State.call]; split_ifs <;> exact h1)
    intro r2 t2 h2
    refine ⟨_, rfl, ?_, ?_, ?_, ?_⟩
    · dsimp only [State.call]; split_ifs <;> exact h2
    · dsimp only [State.call]; split_ifs <;> rfl
    · dsimp only [State.call]; split_ifs <;> rfl
    · dsimp only [State.call]; split_ifs <;> rfl
  · exact ⟨_, rfl, hs, rfl, rfl, rfl⟩

theorem case_M_SET_DAY_frame (e : Ext) (J : TickState → Prop) (s : State)
    (hJ : ∀ t, J t → J (timer1_isr e.pins t)) (hJw : ∀ t, J t → t.timerTicksNow < 256)
    (hs : J s.tick) :
    Returns (FrameOK J s) (case_M_SET_DAY e s) := by
  unfold case_M_SET_DAY
  dsimp only
  split_ifs
  · apply key_bind_J e J _ _ _ _ hJ hJw (by decide) (by exact hs)
    intro r t1 h1
    apply key_bind_J e J _ _ _ _ hJ hJw (by decide)
      (by dsimp only [State.call]; split_ifs <;> exact h1)
    intro r2 t2 h2
    refine ⟨_, rfl, ?_, ?_, ?_, ?_⟩
    · dsimp only [State.call]; split_ifs <;> exact h2
    · dsimp only [State.call]; split_ifs <;> rfl
    · dsimp only [State.call]; split_ifs <;> rfl
    · dsimp only [State.call]; split_ifs <;> rfl
  · exact ⟨_, rfl, hs, rfl, rfl, rfl⟩

/-- The decision step returns; if `J` holds of the tick state at entry and is
kept by `timer1_isr`, it holds at return, and `displaycounter`, `P2` and `P3`
are as at entry. -/
theorem decision_frame (b : Build) (e : Ext) (J : TickState → Prop) (s : State)
    (hJ : ∀ t, J t → J (timer1_isr e.pins t)) (hJw : ∀ t, J t → t.timerTicksNow < 256)
    (hs : J s.tick) :
    Returns (FrameOK J s) (decision b e s) := by
  unfold decision
  by_cases hb : b.CFG_SET_DATE_TIME = 1
  · rw [if_pos hb]
    cases hmode : s.dmode <;> dsimp only
    · exact case_M_NORMAL_frame b e J s hJ hJw hs
    · exact case_M_SET_HOUR_frame e J s hJ hJw hs
    · exact case_M_SET_MINUTE_frame e J s hJ hJw hs
    · exact case_M_SET_MONTH_frame e J s hJ hJw hs
    · exact case_M_SET_DAY_frame e J s hJ hJw hs
    · exact case_M_TEMP_DISP_frame e J s hJ hJw hs
    · exact case_M_DATE_DISP_frame b e J s hJ hJw hs
    · exact case_M_WEEKDAY_DISP_frame b e J s hJ hJw hs
  · rw [if_neg hb]
    cases hmode : s.dmode <;> dsimp only
    · exact case_M_NORMAL_frame b e J s hJ hJw hs
    · exact case_M_NORMAL_frame b e J s hJ hJw hs
    · exact case_M_NORMAL_frame b e J s hJ hJw hs
    · exact case_M_NORMAL_frame b e J s hJ hJw hs
    · exact case_M_NORMAL_frame b e J s hJ hJw hs
    · exact case_M_TEMP_DISP_frame e J s hJ hJw hs
    · exact case_M_DATE_DISP_frame b e J s hJ hJw hs
    · exact case_M_WEEKDAY_DISP_frame b e J s hJ hJw hs

theorem render_branch_frame (b : Build) (e : Ext) (s : State) :
    ((render_time b e s).displaycounter = s.displaycounter ∧
      (render_time b e s).P2 = s.P2 ∧ (render_time b e s).P3 = s.P3) ∧
    ((render_date b e s).displaycounter = s.displaycounter ∧
      (render_date b e s).P2 = s.P2 ∧ (render_date b e s).P3 = s.P3) ∧
    ((render_weekday e s).displaycounter = s.displaycounter ∧
      (render_weekday e s).P2 = s.P2 ∧ (render_weekday e s).P3 = s.P3) ∧
    ((render_temp b e s).displaycounter = s.displaycounter ∧
      (render_temp b e s).P2 = s.P2 ∧ (render_temp b e s).P3 = s.P3) := by
  refine ⟨?_, ?_, ?_, ?_⟩
  · by_cases hb : b.CFG_SET_DATE_TIME = 1 <;> by_cases h12 : b.CFG_HOUR_MODE = 12 <;>
      cases hfh : s.flash_hours <;> cases hfm : s.flash_minutes <;>
      simp [render_time, filldisplay, hb, h12, hfh, hfm]
  · by_cases hb : b.CFG_SET_DATE_TIME = 1 <;>
      cases hfh : s.flash_month <;> cases hfm : s.flash_day <;>
      simp [render_date, filldisplay, hb, hfh, hfm]
  · simp [render_weekday, filldisplay]
  · by_cases hu : b.CFG_TEMP_UNIT = 'F' <;> simp [render_temp, filldisplay, hu]

theorem render_frame (b : Build) (e : Ext) (s : State) :
    (render b e s).tick = s.tick ∧ (render b e s).displaycounter = s.displaycounter ∧
    (render b e s).P2 = s.P2 ∧ (render b e s).P3 = s.P3 := by
  have h := render_branch_frame b e s
  have t1 := (render_time_facts b e s s.dbuf s.dbufCur).2.2
  have t2 := (render_date_facts b e s s.dbuf s.dbufCur).2.2
  have t3 := (render_weekday_facts e s s.dbuf s.dbufCur).2.2
  have t4 := (render_temp_facts b e s s.dbuf s.dbufCur).2.2
  cases hmode : s.dmode <;> simp only [render, hmode] <;>
    first
    | exact ⟨t1, h.1⟩
    | exact ⟨t2, h.2.1⟩
    | exact ⟨t3, h.2.2.1⟩
    | exact ⟨t4, h.2.2.2⟩
    | (split_ifs
       · first | exact ⟨t1, h.1⟩ | exact ⟨t2, h.2.1⟩
       · exact ⟨rfl, rfl, rfl, rfl⟩)

/-- One iteration of the main loop returns; the tick state at its end is the
one at its start advanced by executions of `timer1_isr` alone, and
`displaycounter`, `P2` and `P3` are as at its start. -/
theorem loop_body_frame (b : Build) (e : Ext) (s : State)
    (hwf : s.tick.timerTicksNow < 256) :
    Returns (FrameOK (TickedFrom e.pins s.tick) s) (loop_body b e s) := by
  have hJ := TickedFrom_step e.pins s.tick
  have hJw : ∀ t, TickedFrom e.pins s.tick t → t.timerTicksNow < 256 := fun t h => h.1
  -- loop head
  have hd := _delay_ms_eq e.pins 60 s.tick (by norm_num) hwf
  have hw : wait e 60 { s with RELAY := false }
      = some { s with RELAY := false, tick := ticks e.pins (60 / 10) s.tick } := by
    simp only [wait, hd, Option.map_some']
  have h0 : Returns (FrameOK (TickedFrom e.pins s.tick) s) (loop_head b e s) := by
    unfold loop_head
    rw [hw, Option.some_bind]
    refine ⟨_, rfl, ?_, ?_, ?_, ?_⟩
    · show TickedFrom e.pins s.tick (sense b e _).tick
      rw [(sense_frame b e _).1]
      exact ⟨ticks_timerTicksNow_lt e.pins _ s.tick hwf, _, rfl⟩
    · show (sense b e _).displaycounter = _
      unfold sense; dsimp only [State.call]; split_ifs <;> rfl
    · show (sense b e _).P2 = _
      unfold sense; dsimp only [State.call]; split_ifs <;> rfl
    · show (sense b e _).P3 = _
      unfold sense; dsimp only [State.call]; split_ifs <;> rfl
  unfold loop_body
  apply returns_bind _ _ _ _ h0
  intro s0 hs0
  apply returns_bind _ _ _ _ (decision_frame b e (TickedFrom e.pins s.tick) s0 hJ hJw hs0.1)
  intro s1 hs1
  have hr := render_frame b e s1
  have ht : (commit (rotateThirdPos (render b e s1))).tick = s1.tick := hr.1
  have hj : TickedFrom e.pins s.tick (commit (rotateThirdPos (render b e s1))).tick := by
    rw [ht]; exact hs1.1
  have hd2 := _delay_ms_eq e.pins 40 _ (by norm_num) hj.1
  unfold loop_tail
  simp only [wait, State.call, hd2, Option.map_some', Option.some_bind]
  refine ⟨_, rfl, ?_, ?_, ?_, ?_⟩
  · exact J_ticks e.pins _ hJ _ _ hj
  · show (render b e s1).displaycounter = _
    rw [hr.2.1, hs1.2.1, hs0.2.1]
  · show (render b e s1).P2 = _
    rw [hr.2.2.1, hs1.2.2.1, hs0.2.2.1]
  · show (render b e s1).P3 = _
    rw [hr.2.2.2, hs1.2.2.2, hs0.2.2.2]

/-- What `timer0_isr` writes: `displaycounter`, `P2` and `P3`, nothing else. -/
theorem timer0_isr_frame (s r : State) (h : timer0_isr s = some r) :
    r = { s with displaycounter := r.displaycounter, P2 := r.P2, P3 := r.P3 } := by
  by_cases hl : s.lightval = 0
  · simp [timer0_isr, hl] at h
  · by_cases hlit : s.displaycounter % s.lightval < 4
    · obtain ⟨v, _, hr⟩ := timer0_isr_lit s hl hlit
      rw [hr] at h
      rw [← Option.some.inj h]
    · have hr := timer0_isr_dark s hl hlit
      rw [hr] at h
      rw [← Option.some.inj h]

/-- C16: (a) an execution of `timer1_isr` changes only `switchcount`,
`debounce` and `timerTicksNow` (with the tick index), and `timerTicksNow`
increases by exactly 1 modulo 256; (b) an execution of `timer0_isr` changes
only `displaycounter`, `P2` and `P3`; so neither changes `dbuf`, `dbufCur`,
`dmode`, the flash flags, `rtc`, `config`, `temp` or `lightval`; (c) one
iteration of the main loop returns and writes none of `timerTicksNow`,
`switchcount`, `debounce`, `displaycounter`: the tick state at its end is the
tick state at its start advanced by the executions of `timer1_isr` that ran
during its delays, and `displaycounter` (with `P2`, `P3`) is as at its
start. -/
theorem single_writer (b : Build) (e : Ext) (s : State)
    (hwf : s.tick.timerTicksNow < 256) :
    (timer1_step e.pins s = { s with tick := (timer1_step e.pins s).tick } ∧
      (timer1_step e.pins s).tick.timerTicksNow = (s.tick.timerTicksNow + 1) % 256 ∧
      (timer1_step e.pins s).dbuf = s.dbuf ∧ (timer1_step e.pins s).dbufCur = s.dbufCur ∧
      (timer1_step e.pins s).dmode = s.dmode ∧
      (timer1_step e.pins s).flash_hours = s.flash_hours ∧
      (timer1_step e.pins s).flash_minutes = s.flash_minutes ∧
      (timer1_step e.pins s).flash_month = s.flash_month ∧
      (timer1_step e.pins s).flash_day = s.flash_day ∧
      (timer1_step e.pins s).rtc = s.rtc ∧ (timer1_step e.pins s).config = s.config ∧
      (timer1_step e.pins s).temp = s.temp ∧ (timer1_step e.pins s).lightval = s.lightval ∧
      (timer1_step e.pins s).displaycounter = s.displaycounter ∧
      (timer1_step e.pins s).P2 = s.P2 ∧ (timer1_step e.pins s).P3 = s.P3) ∧
    (∀ r, timer0_isr s = some r →
      r = { s with displaycounter := r.displaycounter, P2 := r.P2, P3 := r.P3 }) ∧
    (∃ r, loop_body b e s = some r ∧ (∃ n, r.tick = ticks e.pins n s.tick) ∧
      r.displaycounter = s.displaycounter ∧ r.P2 = s.P2 ∧ r.P3 = s.P3) := by
  refine ⟨⟨rfl, rfl, rfl, rfl, rfl, rfl, rfl, rfl, rfl, rfl, rfl, rfl, rfl, rfl, rfl, rfl⟩,
    fun r h => timer0_isr_frame s r h, ?_⟩
  obtain ⟨r, hr, hj, hd, h2, h3⟩ := loop_body_frame b e s hwf
  exact ⟨r, hr, hj.2, hd, h2, h3⟩

/-- C16 at a concrete state: normal mode, S2 held closed. -/
theorem single_writer_witness :
    (timer1_step (extOf pinsS2).pins (stateOf M_NORMAL false (tickS2 5))
        = { stateOf M_NORMAL false (tickS2 5) with
            tick := (timer1_step (extOf pinsS2).pins (stateOf M_NORMAL false (tickS2 5))).tick } ∧
      (timer1_step (extOf pinsS2).pins (stateOf M_NORMAL false (tickS2 5))).tick.timerTicksNow
        = ((stateOf M_NORMAL false (tickS2 5)).tick.timerTicksNow + 1) % 256 ∧
      (timer1_step (extOf pinsS2).pins (stateOf M_NORMAL false (tickS2 5))).dbuf
        = (stateOf M_NORMAL false (tickS2 5)).dbuf ∧
      (timer1_step (extOf pinsS2).pins (stateOf M_NORMAL false (tickS2 5))).dbufCur
        = (stateOf M_NORMAL false (tickS2 5)).dbufCur ∧
      (timer1_step (extOf pinsS2).pins (stateOf M_NORMAL false (tickS2 5))).dmode
        = (stateOf M_NORMAL false (tickS2 5)).dmode ∧
      (timer1_step (extOf pinsS2).pins (stateOf M_NORMAL false (tickS2 5))).flash_hours
        = (stateOf M_NORMAL false (tickS2 5)).flash_hours ∧
      (timer1_step (extOf pinsS2).pins (stateOf M_NORMAL false (tickS2 5))).flash_minutes
        = (stateOf M_NORMAL false (tickS2 5)).flash_minutes ∧
      (timer1_step (extOf pinsS2).pins (stateOf M_NORMAL false (tickS2 5))).flash_month
        = (stateOf M_NORMAL false (tickS2 5)).flash_month ∧
      (timer1_step (extOf pinsS2).pins (stateOf M_NORMAL false (tickS2 5))).flash_day
        = (stateOf M_NORMAL false (tickS2 5)).flash_day ∧
      (timer1_step (extOf pinsS2).pins (stateOf M_NORMAL false (tickS2 5))).rtc
        = (stateOf M_NORMAL false (tickS2 5)).rtc ∧
      (timer1_step (extOf pinsS2).pins (stateOf M_NORMAL false (tickS2 5))).config
        = (stateOf M_NORMAL false (tickS2 5)).config ∧
      (timer1_step (extOf pinsS2).pins (stateOf M_NORMAL false (tickS2 5))).temp
        = (stateOf M_NORMAL false (tickS2 5)).temp ∧
      (timer1_step (extOf pinsS2).pins (stateOf M_NORMAL false (tickS2 5))).lightval
        = (stateOf M_NORMAL false (tickS2 5)).lightval ∧
      (timer1_step (extOf pinsS2).pins (stateOf M_NORMAL false (tickS2 5))).displaycounter
        = (stateOf M_NORMAL false (tickS2 5)).displaycounter ∧
      (timer1_step (extOf pinsS2).pins (stateOf M_NORMAL false (tickS2 5))).P2
        = (stateOf M_NORMAL false (tickS2 5)).P2 ∧
      (timer1_step (extOf pinsS2).pins (stateOf M_NORMAL false (tickS2 5))).P3
        = (stateOf M_NORMAL false (tickS2 5)).P3) ∧
    (∀ r, timer0_isr (stateOf M_NORMAL false (tickS2 5)) = some r →
      r = { stateOf M_NORMAL false (tickS2 5) with
            displaycounter := r.displaycounter, P2 := r.P2, P3 := r.P3 }) ∧
    (∃ r, loop_body buildEdit (extOf pinsS2) (stateOf M_NORMAL false (tickS2 5)) = some r ∧
      (∃ n, r.tick = ticks (extOf pinsS2).pins n (stateOf M_NORMAL false (tickS2 5)).tick) ∧
      r.displaycounter = (stateOf M_NORMAL false (tickS2 5)).displaycounter ∧
      r.P2 = (stateOf M_NORMAL false (tickS2 5)).P2 ∧
      r.P3 = (stateOf M_NORMAL false (tickS2 5)).P3) :=
  single_writer buildEdit (extOf pinsS2) (stateOf M_NORMAL false (tickS2 5)) (by decide)

/-! ## Flash flags -/

theorem case_M_SET_HOUR_flash (e : Ext) (s : State)
    (hwf : s.tick.timerTicksNow < 256) (hmode : s.dmode = M_SET_HOUR) (hI : FlashInv s) :
    Returns (fun r => FlashInv r ∧ r.tick.timerTicksNow < 256) (case_M_SET_HOUR e s) := by
  obtain ⟨_, h2, h3, h4⟩ := hI
  simp only [hmode] at h2 h3 h4
  unfold case_M_SET_HOUR
  dsimp only
  split_ifs with hf
  · apply key_bind _ _ _ _ _ (by decide) (by exact hwf)
    intro r t1 h1
    apply key_bind _ _ _ _ _ (by decide) (by dsimp only [State.call]; split_ifs <;> exact h1)
    intro r2 t2 hw2
    refine ⟨_, rfl, ?_, ?_⟩
    · simp only [FlashInv]
      dsimp only [State.call]
      split_ifs <;> simp_all
    · dsimp only [State.call]; split_ifs <;> exact hw2
  · refine ⟨_, rfl, ?_, hwf⟩
    simp only [FlashInv]
    simp_all

theorem case_M_NORMAL_flash (b : Build) (e : Ext) (s : State)
    (hb : b.CFG_SET_DATE_TIME = 1)
    (hwf : s.tick.timerTicksNow < 256) (hmode : s.dmode = M_NORMAL) (hI : FlashInv s) :
    Returns (fun r => FlashInv r ∧ r.tick.timerTicksNow < 256) (case_M_NORMAL b e s) := by
  obtain ⟨_, _, h3, h4⟩ := hI
  simp only [hmode] at h3 h4
  unfold case_M_NORMAL
  apply returns_bind _ _ (fun r => r.flash_hours = false ∧ r.flash_minutes = false ∧
    r.flash_month = false ∧ r.flash_day = false ∧ r.tick.timerTicksNow < 256)
  · rw [if_pos hb]
    apply both_long_bind _ _ _ _ (by dsimp only; split_ifs <;> exact hwf)
    intro r t1 h1
    apply key_bind _ _ _ _ _ (by decide) (by dsimp only [State.call]; split_ifs <;> exact h1)
    intro r2 t2 hw2
    refine ⟨_, rfl, ?_, ?_, ?_, ?_, ?_⟩
    · dsimp only [State.call]; split_ifs <;> rfl
    · dsimp only [State.call]; split_ifs <;> rfl
    · dsimp only [State.call]; split_ifs <;> simp_all
    · dsimp only [State.call]; split_ifs <;> simp_all
    · dsimp only [State.call]; split_ifs <;> exact hw2
  · intro s0 hs0
    apply key_bind _ _ _ _ _ (by decide) hs0.2.2.2.2
    intro r2 t2 hw2
    refine ⟨_, rfl, ?_, ?_⟩
    · simp only [FlashInv]
      split_ifs <;> simp_all
    · dsimp only; split_ifs <;> exact hw2

theorem case_M_SET_MINUTE_flash (e : Ext) (s : State)
    (hwf : s.tick.timerTicksNow < 256) (hmode : s.dmode = M_SET_MINUTE) (hI : FlashInv s) :
    Returns (fun r => FlashInv r ∧ r.tick.timerTicksNow < 256) (case_M_SET_MINUTE e s) := by
  obtain ⟨h1, h2, h3, h4⟩ := hI
  simp only [hmode] at h1 h2 h3 h4
  unfold case_M_SET_MINUTE
  dsimp only
  split_ifs with hf
  · apply key_bind _ _ _ _ _ (by decide) (by exact hwf)
    intro r t1 hw1
    apply key_bind _ _ _ _ _ (by decide) (by dsimp only [State.call]; split_ifs <;> exact hw1)
    intro r2 t2 hw2
    refine ⟨_, rfl, ?_, ?_⟩
    · simp only [FlashInv]
      dsimp only [State.call]
      split_ifs <;> simp_all
    · dsimp only [State.call]; split_ifs <;> exact hw2
  · refine ⟨_, rfl, ?_, hwf⟩
    simp only [FlashInv]
    simp_all

theorem case_M_SET_MONTH_flash (e : Ext) (s : State)
    (hwf : s.tick.timerTicksNow < 256) (hmode : s.dmode = M_SET_MONTH) (hI : FlashInv s) :
    Returns (fun r => FlashInv r ∧ r.tick.timerTicksNow < 256) (case_M_SET_MONTH e s) := by
  obtain ⟨h1, h2, h3, h4⟩ := hI
  simp only [hmode] at h1 h2 h3 h4
  unfold case_M_SET_MONTH
  dsimp only
  split_ifs with hf
  · apply key_bind _ _ _ _ _ (by decide) (by exact hwf)
    intro r t1 hw1
    apply key_bind _ _ _ _ _ (by decide) (by dsimp only [State.call]; split_ifs <;> exact hw1)
    intro r2 t2 hw2
    refine ⟨_, rfl, ?_, ?_⟩
    · simp only [FlashInv]
      dsimp only [State.call]
      split_ifs <;> simp_all
    · dsimp only [State.call]; split_ifs <;> exact hw2
  · refine ⟨_, rfl, ?_, hwf⟩
    simp only [FlashInv]
    simp_all

theorem case_M_SET_DAY_flash (e : Ext) (s : State)
    (hwf : s.tick.timerTicksNow < 256) (hmode : s.dmode = M_SET_DAY) (hI : FlashInv s) :
    Returns (fun r => FlashInv r ∧ r.tick.timerTicksNow < 256) (case_M_SET_DAY e s) := by
  obtain ⟨h1, h2, h3, h4⟩ := hI
  simp only [hmode] at h1 h2 h3 h4
  unfold case_M_SET_DAY
  dsimp only
  split_ifs with hf
  · apply key_bind _ _ _ _ _ (by decide) (by exact hwf)
    intro r t1 hw1
    apply key_bind _ _ _ _ _ (by decide) (by dsimp only [State.call]; split_ifs <;> exact hw1)
    intro r2 t2 hw2
    refine ⟨_, rfl, ?_, ?_⟩
    · simp only [FlashInv]
      dsimp only [State.call]
      split_ifs <;> simp_all
    · dsimp only [State.call]; split_ifs <;> exact hw2
  · refine ⟨_, rfl, ?_, hwf⟩
    simp only [FlashInv]
    simp_all

theorem case_M_TEMP_DISP_flash (e : Ext) (s : State)
    (hwf : s.tick.timerTicksNow < 256) (hmode : s.dmode = M_TEMP_DISP) (hI : FlashInv s) :
    Returns (fun r => FlashInv r ∧ r.tick.timerTicksNow < 256) (case_M_TEMP_DISP e s) := by
  obtain ⟨h1, h2, h3, h4⟩ := hI
  simp only [hmode] at h1 h2 h3 h4
  unfold case_M_TEMP_DISP
  apply key_bind _ _ _ _ _ (by decide) hwf
  intro r t1 hw1
  apply key_bind _ _ _ _ _ (by decide) (by dsimp only; split_ifs <;> exact hw1)
  intro r2 t2 hw2
  refine ⟨_, rfl, ?_, ?_⟩
  · simp only [FlashInv]
    split_ifs <;> simp_all
  · dsimp only; split_ifs <;> exact hw2

theorem case_M_DATE_DISP_flash (b : Build) (e : Ext) (s : State)
    (hwf : s.tick.timerTicksNow < 256) (hmode : s.dmode = M_DATE_DISP) (hI : FlashInv s) :
    Returns (fun r => FlashInv r ∧ r.tick.timerTicksNow < 256) (case_M_DATE_DISP b e s) := by
  obtain ⟨h1, h2, h3, h4⟩ := hI
  simp only [hmode] at h1 h2 h3 h4
  unfold case_M_DATE_DISP
  apply returns_bind _ _ (fun r => r.flash_hours = false ∧ r.flash_minutes = false ∧
    r.flash_month = false ∧ r.flash_day = false ∧ r.tick.timerTicksNow < 256)
  · by_cases hb : b.CFG_SET_DATE_TIME = 1
    · rw [if_pos hb]
      apply key_bind _ _ _ _ _ (by decide) hwf
      intro r t1 hw1
      refine ⟨_, rfl, ?_, ?_, ?_, ?_, ?_⟩
      · dsimp only [State.call]; split_ifs <;> simp_all
      · dsimp only [State.call]; split_ifs <;> simp_all
      · dsimp only [State.call]; split_ifs <;> simp_all
      · dsimp only [State.call]; split_ifs <;> simp_all
      · dsimp only [State.call]; split_ifs <;> exact hw1
    · rw [if_neg hb]
      refine ⟨_, rfl, ?_, ?_, ?_, ?_, hwf⟩ <;> simp_all
  · intro s0 hs0
    apply key_bind _ _ _ _ _ (by decide) hs0.2.2.2.2
    intro r2 t2 hw2
    refine ⟨_, rfl, ?_, ?_⟩
    · simp only [FlashInv]
      split_ifs <;> simp_all
    · dsimp only; split_ifs <;> exact hw2

theorem case_M_WEEKDAY_DISP_flash (b : Build) (e : Ext) (s : State)
    (hwf : s.tick.timerTicksNow < 256) (hmode : s.dmode = M_WEEKDAY_DISP) (hI : FlashInv s) :
    Returns (fun r => FlashInv r ∧ r.tick.timerTicksNow < 256) (case_M_WEEKDAY_DISP b e s) := by
  obtain ⟨h1, h2, h3, h4⟩ := hI
  simp only [hmode] at h1 h2 h3 h4
  unfold case_M_WEEKDAY_DISP
  apply returns_bind _ _ (fun r => r.flash_hours = false ∧ r.flash_minutes = false ∧
    r.flash_month = false ∧ r.flash_day = false ∧ r.tick.timerTicksNow < 256)
  · by_cases hb : b.CFG_SET_DATE_TIME = 1
    · rw [if_pos hb]
      apply key_bind _ _ _ _ _ (by decide) hwf
      intro r t1 hw1
      refine ⟨_, rfl, ?_, ?_, ?_, ?_, ?_⟩
      · dsimp only [State.call]; split_ifs <;> simp_all
      · dsimp only [State.call]; split_ifs <;> simp_all
      · dsimp only [State.call]; split_ifs <;> simp_all
      · dsimp only [State.call]; split_ifs <;> simp_all
      · dsimp only [State.call]; split_ifs <;> exact hw1
    · rw [if_neg hb]
      refine ⟨_, rfl, ?_, ?_, ?_, ?_, hwf⟩ <;> simp_all
  · intro s0 hs0
    apply key_bind _ _ _ _ _ (by decide) hs0.2.2.2.2
    intro r2 t2 hw2
    refine ⟨_, rfl, ?_, ?_⟩
    · simp only [FlashInv]
      split_ifs <;> simp_all
    · dsimp only; split_ifs <;> exact hw2

/-- With editing built in, the decision step returns and keeps the
flash-flag invariant. -/
theorem decision_flash (b : Build) (e : Ext) (s : State)
    (hb : b.CFG_SET_DATE_TIME = 1) (hwf : s.tick.timerTicksNow < 256) (hI : FlashInv s) :
    Returns (fun r => FlashInv r ∧ r.tick.timerTicksNow < 256) (decision b e s) := by
  unfold decision
  rw [if_pos hb]
  cases hmode : s.dmode <;> dsimp only
  · exact case_M_NORMAL_flash b e s hb hwf hmode hI
  · exact case_M_SET_HOUR_flash e s hwf hmode hI
  · exact case_M_SET_MINUTE_flash e s hwf hmode hI
  · exact case_M_SET_MONTH_flash e s hwf hmode hI
  · exact case_M_SET_DAY_flash e s hwf hmode hI
  · exact case_M_TEMP_DISP_flash e s hwf hmode hI
  · exact case_M_DATE_DISP_flash b e s hwf hmode hI
  · exact case_M_WEEKDAY_DISP_flash b e s hwf hmode hI

theorem loop_head_flash (b : Build) (e : Ext) (s : State)
    (hwf : s.tick.timerTicksNow < 256) (hI : FlashInv s) :
    Returns (fun r => FlashInv r ∧ r.tick.timerTicksNow < 256) (loop_head b e s) := by
  have hd := _delay_ms_eq e.pins 60 s.tick (by norm_num) hwf
  have hw : wait e 60 { s with RELAY := false }
      = some { s with RELAY := false, tick := ticks e.pins (60 / 10) s.tick } := by
    simp only [wait, hd, Option.map_some']
  unfold loop_head
  rw [hw, Option.some_bind]
  refine ⟨_, rfl, ?_, ?_⟩
  · simp only [FlashInv] at hI ⊢
    unfold sense
    dsimp only [State.call]
    split_ifs <;> exact hI
  · show (sense b e _).tick.timerTicksNow < 256
    rw [(sense_frame b e _).1]
    exact ticks_timerTicksNow_lt e.pins _ s.tick hwf

theorem render_flash (b : Build) (e : Ext) (s : State) :
    ((render b e s).flash_hours = s.flash_hours ∧ (render b e s).flash_minutes = s.flash_minutes ∧
      (render b e s).flash_month = s.flash_month ∧ (render b e s).flash_day = s.flash_day) ∧
    (render b e s).dmode = s.dmode := by
  have h1 : ((render_time b e s).flash_hours = s.flash_hours ∧
      (render_time b e s).flash_minutes = s.flash_minutes ∧
      (render_time b e s).flash_month = s.flash_month ∧
      (render_time b e s).flash_day = s.flash_day) ∧ (render_time b e s).dmode = s.dmode := by
    by_cases hb : b.CFG_SET_DATE_TIME = 1 <;> by_cases h12 : b.CFG_HOUR_MODE = 12 <;>
      cases hfh : s.flash_hours <;> cases hfm : s.flash_minutes <;>
      simp [render_time, filldisplay, hb, h12, hfh, hfm]
  have h2 : ((render_date b e s).flash_hours = s.flash_hours ∧
      (render_date b e s).flash_minutes = s.flash_minutes ∧
      (render_date b e s).flash_month = s.flash_month ∧
      (render_date b e s).flash_day = s.flash_day) ∧ (render_date b e s).dmode = s.dmode := by
    by_cases hb : b.CFG_SET_DATE_TIME = 1 <;>
      cases hfh : s.flash_month <;> cases hfm : s.flash_day <;>
      simp [render_date, filldisplay, hb, hfh, hfm]
  have h3 : ((render_weekday e s).flash_hours = s.flash_hours ∧
      (render_weekday e s).flash_minutes = s.flash_minutes ∧
      (render_weekday e s).flash_month = s.flash_month ∧
      (render_weekday e s).flash_day = s.flash_day) ∧ (render_weekday e s).dmode = s.dmode := by
    simp [render_weekday, filldisplay]
  have h4 : ((render_temp b e s).flash_hours = s.flash_hours ∧
      (render_temp b e s).flash_minutes = s.flash_minutes ∧
      (render_temp b e s).flash_month = s.flash_month ∧
      (render_temp b e s).flash_day = s.flash_day) ∧ (render_temp b e s).dmode = s.dmode := by
    by_cases hu : b.CFG_TEMP_UNIT = 'F' <;> simp [render_temp, filldisplay, hu]
  cases hmode : s.dmode <;> simp only [render, hmode] <;>
    first
    | (rw [hmode] at h1; exact h1)
    | (rw [hmode] at h2; exact h2)
    | (rw [hmode] at h3; exact h3)
    | (rw [hmode] at h4; exact h4)
    | (split_ifs
       · first | (rw [hmode] at h1; exact h1) | (rw [hmode] at h2; exact h2)
       · exact ⟨⟨rfl, rfl, rfl, rfl⟩, hmode⟩)

/-- A full iteration returns and keeps the flash-flag invariant (editing
built in). -/
theorem loop_body_flash (b : Build) (e : Ext) (s : State)
    (hb : b.CFG_SET_DATE_TIME = 1) (hwf : s.tick.timerTicksNow < 256) (hI : FlashInv s) :
    Returns (fun r => FlashInv r ∧ r.tick.timerTicksNow < 256) (loop_body b e s) := by
  unfold loop_body
  apply returns_bind _ _ _ _ (loop_head_flash b e s hwf hI)
  intro s0 hs0
  apply returns_bind _ _ _ _ (decision_flash b e s0 hb hs0.2 hs0.1)
  intro s1 hs1
  have hr := render_flash b e s1
  have hf := render_frame b e s1
  have hw : (commit (rotateThirdPos (render b e s1))).tick.timerTicksNow < 256 := by
    show (render b e s1).tick.timerTicksNow < 256
    rw [hf.1]; exact hs1.2
  have hd2 := _delay_ms_eq e.pins 40 _ (by norm_num) hw
  unfold loop_tail
  simp only [wait, State.call, hd2, Option.map_some', Option.some_bind]
  refine ⟨_, rfl, ?_, ?_⟩
  · obtain ⟨i1, i2, i3, i4⟩ := hs1.1
    show ((render b e s1).flash_hours = true → (render b e s1).dmode = M_SET_HOUR) ∧
      ((render b e s1).flash_minutes = true → (render b e s1).dmode = M_SET_MINUTE) ∧
      ((render b e s1).flash_month = true → (render b e s1).dmode = M_SET_MONTH) ∧
      ((render b e s1).flash_day = true → (render b e s1).dmode = M_SET_DAY)
    rw [hr.1.1, hr.1.2.1, hr.1.2.2.1, hr.1.2.2.2, hr.2]
    exact ⟨i1, i2, i3, i4⟩
  · exact ticks_timerTicksNow_lt e.pins _ _ hw

theorem reachable_flash (b : Build) (e : Ext) (s : State)
    (hb : b.CFG_SET_DATE_TIME = 1) (hr : Reachable b e s) :
    FlashInv s ∧ s.tick.timerTicksNow < 256 := by
  induction hr with
  | start s hm h1 h2 h3 h4 hw =>
    refine ⟨⟨?_, ?_, ?_, ?_⟩, hw⟩ <;> intro h <;> simp_all
  | iter s r _ hl ih =>
    obtain ⟨r2, hr2, hp⟩ := loop_body_flash b e s hb ih.2 ih.1
    rw [hr2] at hl
    rw [← Option.some.inj hl]
    exact hp

/-- C18: with editing built in, in every state reachable from the initial
state (`dmode = M_NORMAL`, all flash flags false) the flash-flag invariant
holds, and the decision step of the next iteration returns in a state where it
holds again: `flash_hours` is true only if `dmode = M_SET_HOUR`,
`flash_minutes` only if `dmode = M_SET_MINUTE`, `flash_month` only if
`dmode = M_SET_MONTH`, `flash_day` only if `dmode = M_SET_DAY`.  Hence in
`M_NORMAL` and in `M_DATE_DISP` the render step writes the four value
patterns and never the blanked pair. -/
theorem flash_flags_only_in_own_mode (b : Build) (e : Ext) (s : State)
    (hb : b.CFG_SET_DATE_TIME = 1) (hr : Reachable b e s) :
    FlashInv s ∧
    ∃ s0 s1, loop_head b e s = some s0 ∧ decision b e s0 = some s1 ∧ FlashInv s1 ∧
      (s1.dmode = M_NORMAL →
        (render b e s1).dbuf =
          { b0 := pattern e (if b.CFG_HOUR_MODE = 12 then
                  (if s1.rtc.h12_tenhour ≠ 0 then s1.rtc.h12_tenhour else e.LED_BLANK)
                else s1.rtc.h24_tenhour) DP_OFF
            b1 := pattern e s1.rtc.h12_hour s1.display_colon
            b2 := pattern e s1.rtc.tenminutes s1.display_colon
            b3 := pattern e s1.rtc.minutes (if b.CFG_HOUR_MODE = 12 then
                  (if s1.rtc.h12_pm ≠ 0 then DP_ON else DP_OFF) else DP_OFF) }) ∧
      (s1.dmode = M_DATE_DISP →
        (render b e s1).dbuf =
          { b0 := pattern e s1.rtc.tenmonth DP_OFF
            b1 := pattern e s1.rtc.month DP_ON
            b2 := pattern e s1.rtc.tenday DP_OFF
            b3 := pattern e s1.rtc.day DP_OFF }) := by
  obtain ⟨hI, hw⟩ := reachable_flash b e s hb hr
  obtain ⟨s0, h0, hI0, hw0⟩ := loop_head_flash b e s hw hI
  obtain ⟨s1, h1, hI1, _⟩ := decision_flash b e s0 hb hw0 hI0
  refine ⟨hI, s0, s1, h0, h1, hI1, ?_, ?_⟩
  · intro hm
    obtain ⟨i1, i2, _, _⟩ := hI1
    rw [hm] at i1 i2
    have f1 : s1.flash_hours = false := by
      cases hf : s1.flash_hours
      · rfl
      · exact absurd (i1 hf) (by decide)
    have f2 : s1.flash_minutes = false := by
      cases hf : s1.flash_minutes
      · rfl
      · exact absurd (i2 hf) (by decide)
    by_cases h12 : b.CFG_HOUR_MODE = 12 <;>
      simp [render, hm, render_time, filldisplay, Buf4.set, pattern, hb, h12, f1, f2]
  · intro hm
    obtain ⟨_, _, i3, i4⟩ := hI1
    rw [hm] at i3 i4
    have f3 : s1.flash_month = false := by
      cases hf : s1.flash_month
      · rfl
      · exact absurd (i3 hf) (by decide)
    have f4 : s1.flash_day = false := by
      cases hf : s1.flash_day
      · rfl
      · exact absurd (i4 hf) (by decide)
    simp [render, hm, render_date, filldisplay, Buf4.set, pattern, hb, f3, f4]

/-- C18 at the initial state of the examples. -/
theorem flash_flags_only_in_own_mode_witness :
    FlashInv (stateOf M_NORMAL false (tickS2 5)) ∧
    ∃ s0 s1, loop_head buildEdit (extOf pinsS2) (stateOf M_NORMAL false (tickS2 5)) = some s0 ∧
      decision buildEdit (extOf pinsS2) s0 = some s1 ∧ FlashInv s1 ∧
      (s1.dmode = M_NORMAL →
        (render buildEdit (extOf pinsS2) s1).dbuf =
          { b0 := pattern (extOf pinsS2) (if buildEdit.CFG_HOUR_MODE = 12 then
                  (if s1.rtc.h12_tenhour ≠ 0 then s1.rtc.h12_tenhour
                   else (extOf pinsS2).LED_BLANK)
                else s1.rtc.h24_tenhour) DP_OFF
            b1 := pattern (extOf pinsS2) s1.rtc.h12_hour s1.display_colon
            b2 := pattern (extOf pinsS2) s1.rtc.tenminutes s1.display_colon
            b3 := pattern (extOf pinsS2) s1.rtc.minutes (if buildEdit.CFG_HOUR_MODE = 12 then
                  (if s1.rtc.h12_pm ≠ 0 then DP_ON else DP_OFF) else DP_OFF) }) ∧
      (s1.dmode = M_DATE_DISP →
        (render buildEdit (extOf pinsS2) s1).dbuf =
          { b0 := pattern (extOf pinsS2) s1.rtc.tenmonth DP_OFF
            b1 := pattern (extOf pinsS2) s1.rtc.month DP_ON
            b2 := pattern (extOf pinsS2) s1.rtc.tenday DP_OFF
            b3 := pattern (extOf pinsS2) s1.rtc.day DP_OFF }) :=
  flash_flags_only_in_own_mode buildEdit (extOf pinsS2) (stateOf M_NORMAL false (tickS2 5))
    rfl (Reachable.start _ rfl rfl rfl rfl rfl (by decide))

end DiyClock
